import Mathlib

/-!
Shallow embedding of the persistence layer of
`src/efls-console/console/models/base.py` (classes `BaseObject` and
`BaseRepository`), together with theorems settling the frozen claims
about it.

Modelling conventions:
* Python runtime values that the code manipulates are embedded as the
  inductive `Value`: `None`, numbers (epoch seconds as integers),
  strings, `datetime` objects (kept as their epoch-second instant), enum
  members (wrapping their underlying value), and an error value `verr`
  standing for a raised `TypeError`/`AttributeError` on the spots where
  the Python operation would throw.
* Python dicts (and `self.__dict__`) are association lists with the
  dict update discipline: replace in place on an existing key, append
  at the end otherwise.
* The SQLAlchemy session, the flushed/committed row sets, the logger
  and the clock are threaded through an explicit `World` state.  Flush
  outcomes (success, `IntegrityError`, any other store exception) are
  driven by a script `World.flushScript`, which is how the claims force
  id-collision sequences; `uuid.uuid4().hex` is modelled as an
  injective stream of non-empty tokens indexed by `World.uuidCtr`
  (collisions are forced by the flush script, never by actual token
  equality).
* `DB_MAX_TRY` and `DATA_TIME_KEYS` come from `console/constant`, which
  is not part of the sources; they are kept as parameters (`maxTry`,
  `timeKeys`) and the theorems state the hypotheses they need about
  them.  `DATA_CREATE`/`DATA_MODIFIED` are fixed by the code itself,
  which uses `gmt_create`/`gmt_modified` literally alongside them.
-/

/-- Python values manipulated by `base.py`. -/
inductive Value where
  | vnone
  | vint (n : Int)
  | vstr (s : String)
  | vdatetime (t : Int)
  | venum (u : Value)
  | verr
deriving Repr, DecidableEq

/-- Python truthiness for the embedded values (`datetime` and enum
members are always truthy; an error value never reaches a boolean test
on the executed paths). -/
def Value.truthy : Value → Bool
  | Value.vnone => false
  | Value.vint n => n != 0
  | Value.vstr s => s != ""
  | Value.vdatetime _ => true
  | Value.venum _ => true
  | Value.verr => true

/-- The `datetime.fromtimestamp` conversion used by
`BaseObject.__setattr__`: defined on numbers, a `TypeError` (`verr`)
otherwise. -/
def datetimeFromtimestamp : Value → Value
  | Value.vint n => Value.vdatetime n
  | _ => Value.verr

/-- The `datetime.timestamp` conversion used by `BaseObject.to_dict`:
defined on `datetime` values, a `TypeError` (`verr`) otherwise. -/
def datetimeTimestamp : Value → Value
  | Value.vdatetime t => Value.vint t
  | _ => Value.verr

/-- Python dict with string keys, as an association list in insertion
order. -/
abbrev Dict := List (String × Value)

/-- Python `d[k] = v`: replace in place if the key exists, append
otherwise. -/
def dset : Dict → String → Value → Dict
  | [], k, v => [(k, v)]
  | (a, b) :: rest, k, v =>
      if a = k then (a, v) :: rest else (a, b) :: dset rest k v

/-- Python `d.get(k)`. -/
def dlookup : Dict → String → Option Value
  | [], _ => Option.none
  | (a, b) :: rest, k => if a = k then some b else dlookup rest k

/-- Python `d.update(other)` where `other` is a dict. -/
def dictUpdate (d : Dict) (upd : Dict) : Dict :=
  upd.foldl (fun acc kv => dset acc kv.1 kv.2) d

/-- Python `d.update(l)` where `l` is a list of strings (the call that
`dict_list` actually performs, passing the exclusion list positionally
as `added`): each element must be a length-2 sequence, so a two-char
string contributes its first character as key and its second as value,
and any other string raises `ValueError` (modelled as `Option.none`). -/
def dictUpdateStrList : Dict → List String → Option Dict
  | d, [] => some d
  | d, s :: rest =>
      if s.length = 2 then
        dictUpdateStrList (dset d (s.take 1) (Value.vstr (s.drop 1))) rest
      else Option.none

/-- The mapped-model schema descriptor: column names and the
auto-increment flag of the `id` column. -/
structure Schema where
  columns : List String
  idAutoincrement : Bool
deriving Repr, DecidableEq

/-- A `BaseObject` instance: its Python `__dict__` plus an object
identity (Python `id()`), used for the session identity map. -/
structure BaseObject where
  objId : Nat
  fields : Dict
deriving Repr, DecidableEq

/-- The constant `DATA_CREATE`: the code orders by `model.gmt_create`
under this name. -/
def DATA_CREATE : String := "gmt_create"

/-- The constant `DATA_MODIFIED`: the code writes `element.gmt_modified`
guarded by `hasattr(element, DATA_MODIFIED)`. -/
def DATA_MODIFIED : String := "gmt_modified"

/-- Python `getattr(self, key)`; `verr` stands for the
`AttributeError` raised on a missing attribute. -/
def BaseObject.getattr (e : BaseObject) (k : String) : Value :=
  (dlookup e.fields k).getD Value.verr

/-- Python `hasattr(self, key)`. -/
def BaseObject.hasattr (e : BaseObject) (k : String) : Bool :=
  (dlookup e.fields k).isSome

/-- `BaseObject.__setattr__`: values assigned to a key in
`DATA_TIME_KEYS` are first converted with `datetime.fromtimestamp`. -/
def BaseObject.setattr (timeKeys : List String) (e : BaseObject)
    (k : String) (v : Value) : BaseObject :=
  let v := if k ∈ timeKeys then datetimeFromtimestamp v else v
  { e with fields := dset e.fields k v }

/-- `BaseObject.__init__`: `self.__dict__.update(kwargs)` — a direct
dict write that bypasses `__setattr__` — followed by
`setattr(self, DATA_CREATE, time.time())`, which does go through
`__setattr__`. -/
def BaseObject.init (timeKeys : List String) (objId : Nat)
    (kwargs : Dict) (now : Int) : BaseObject :=
  let e : BaseObject := { objId := objId, fields := [] }
  let e : BaseObject := { e with fields := dictUpdate e.fields kwargs }
  BaseObject.setattr timeKeys e DATA_CREATE (Value.vint now)

/-- The per-column serialization of `to_dict`: enum members are reduced
to their underlying value, and a truthy value of a time column is
converted back with `datetime.timestamp`. -/
def processedColumn (timeKeys : List String) (e : BaseObject)
    (key : String) : Value :=
  let value := e.getattr key
  let value := match value with
    | Value.venum u => u
    | v => v
  if value.truthy ∧ key ∈ timeKeys then datetimeTimestamp value else value

/-- One iteration of the column loop of `to_dict`: skip excluded keys,
otherwise write the serialized column value into the output dict. -/
def to_dict_step (timeKeys : List String) (excluded : List String)
    (e : BaseObject) (output : Dict) (key : String) : Dict :=
  if key ∈ excluded then output
  else dset output key (processedColumn timeKeys e key)

/-- `BaseObject.to_dict`: start from the `added` dict (an absent/empty
`added` is the empty dict), then run the column loop. -/
def BaseObject.to_dict (timeKeys : List String) (schema : Schema)
    (e : BaseObject) (added : Dict) (excluded : List String) : Dict :=
  let output := dictUpdate [] added
  schema.columns.foldl (to_dict_step timeKeys excluded e) output

/-- `BaseObject.to_dict` as invoked by `dict_list`, which passes the
exclusion list positionally, so it arrives as the `added` argument and
`excluded` keeps its default `None` (the empty list);
`output.update(added)` then runs on a list of strings. -/
def BaseObject.to_dict_listAdded (timeKeys : List String)
    (schema : Schema) (e : BaseObject) (added : List String) :
    Option Dict :=
  match dictUpdateStrList [] added with
  | Option.none => Option.none
  | some output =>
      some (schema.columns.foldl (to_dict_step timeKeys [] e) output)

/-- An element of the heterogeneous list handed to `dict_list`: either
an instance of the expected schema class or some foreign object. -/
inductive PyObj where
  | inst (e : BaseObject)
  | foreign (tag : String)
deriving Repr, DecidableEq

/-- The list comprehension body of `dict_list` over the already
`isinstance`-filtered objects; any raise aborts the whole call. -/
def dict_list_go (timeKeys : List String) (schema : Schema)
    (excluded : List String) : List BaseObject → Option (List Dict)
  | [] => some []
  | e :: rest =>
      match BaseObject.to_dict_listAdded timeKeys schema e excluded,
            dict_list_go timeKeys schema excluded rest with
      | some d, some ds => some (d :: ds)
      | _, _ => Option.none

/-- `BaseObject.dict_list`: filters to instances of the class, then
calls `obj.to_dict(excluded)` on each — passing `excluded` positionally
as the `added` parameter. -/
def BaseObject.dict_list (timeKeys : List String) (schema : Schema)
    (objList : List PyObj) (excluded : List String) :
    Option (List Dict) :=
  dict_list_go timeKeys schema excluded
    (objList.filterMap (fun o =>
      match o with
      | PyObj.inst e => some e
      | PyObj.foreign _ => Option.none))

/-- Outcome of one `session.flush()` (or `bulk_save_objects` + flush)
attempt, scripted by the test environment: success, an
`IntegrityError`, or any other store exception. -/
inductive FlushOutcome where
  | ok
  | integrityError
  | otherError
deriving Repr, DecidableEq

/-- Session-level operations, recorded in order of occurrence. -/
inductive Event where
  | add
  | flush
  | commit
  | rollback
  | bulkSave
  | sessDelete
  | queryUpdate
  | queryDelete
deriving Repr, DecidableEq

/-- Errors crossing the `BaseRepository` boundary: the console-level
`Internal` exception, a `TypeError` raised by Python itself, or a raw
store-specific (SQLAlchemy) exception. -/
inductive DbErr where
  | internal (msg : String)
  | typeError
  | storeErr
deriving Repr, DecidableEq

/-- The message used by every fatal-path `logger.error` and
`Internal(message=...)` in `base.py`. -/
def dbFailMsg : String := "fail to insert or update db"

/-- The explicit state threaded through the repository operations:
committed rows, rows flushed inside the open transaction, the pending
(added, unflushed) set, the flush-outcome script, the uuid counter, the
wall clock, the error log and the session-event trace. -/
structure World where
  committed : List BaseObject
  flushed : List BaseObject
  pending : List BaseObject
  flushScript : List FlushOutcome
  uuidCtr : Nat
  clock : Int
  log : List String
  events : List Event
deriving Repr, DecidableEq

/-- Models `uuid.uuid4().hex` as an injective stream of non-empty
tokens; the nth generated identifier is `uuid4hex n`. -/
def uuid4hex (n : Nat) : String :=
  String.mk (List.replicate (n + 1) 'u')

/-- Draw the next identifier from the uuid stream. -/
def genUuid (w : World) : String × World :=
  (uuid4hex w.uuidCtr, { w with uuidCtr := w.uuidCtr + 1 })

/-- The id-generation loop of `insert_or_update_batch`:
`for i in range(len(bulk)): id_list.append(uuid.uuid4().hex)`. -/
def genUuidN : World → Nat → List String × World
  | w, 0 => ([], w)
  | w, n + 1 =>
      let g := genUuid w
      let r := genUuidN g.2 n
      (g.1 :: r.1, r.2)

/-- `time.time()`: read the clock; successive reads differ. -/
def readClock (w : World) : Int × World :=
  (w.clock, { w with clock := w.clock + 1 })

/-- `logger.error(msg)`. -/
def logError (w : World) (msg : String) : World :=
  { w with log := w.log ++ [msg] }

/-- `session.add(element)`: the session identity map keeps one entry
per object identity, updated to the object's current state. -/
def sessAdd (w : World) (e : BaseObject) : World :=
  let pending :=
    if w.pending.any (fun p => p.objId == e.objId) then
      w.pending.map (fun p => if p.objId == e.objId then e else p)
    else w.pending ++ [e]
  { w with pending := pending, events := w.events ++ [Event.add] }

/-- `session.flush()`: consume the next scripted outcome; on success
the pending set becomes flushed rows of the open transaction, on
failure nothing is written. -/
def sessFlush (w : World) : FlushOutcome × World :=
  let outcome := w.flushScript.headD FlushOutcome.ok
  let w := { w with flushScript := w.flushScript.tail,
                    events := w.events ++ [Event.flush] }
  match outcome with
  | FlushOutcome.ok =>
      (FlushOutcome.ok,
        { w with flushed := w.flushed ++ w.pending, pending := [] })
  | o => (o, w)

/-- `session.bulk_save_objects(bulk)` followed by `session.flush()`:
on success all rows of the batch are written to the open transaction. -/
def bulkSaveFlush (w : World) (bulk : List BaseObject) :
    FlushOutcome × World :=
  let outcome := w.flushScript.headD FlushOutcome.ok
  let w := { w with flushScript := w.flushScript.tail,
                    events := w.events ++ [Event.bulkSave, Event.flush] }
  match outcome with
  | FlushOutcome.ok =>
      (FlushOutcome.ok, { w with flushed := w.flushed ++ bulk })
  | o => (o, w)

/-- `session.rollback()`: discard everything the open transaction has
pending or flushed. -/
def sessRollback (w : World) : World :=
  { w with pending := [], flushed := [],
           events := w.events ++ [Event.rollback] }

/-- `session.commit()`: flush what is pending and make the open
transaction durable. -/
def sessCommit (w : World) : World :=
  { w with committed := w.committed ++ w.flushed ++ w.pending,
           flushed := [], pending := [],
           events := w.events ++ [Event.commit] }

/-- Rows visible to a query on the session: committed rows plus rows
flushed in the open transaction. -/
def visibleRows (w : World) : List BaseObject :=
  w.committed ++ w.flushed

/-- `BaseRepository.get_in(id_list)`:
`query(model).filter(model.id.in_(id_list)).all()` — note the correct
use of `filter` with a criterion here. -/
def BaseRepository.get_in (w : World) (idList : List Value) :
    List BaseObject :=
  (visibleRows w).filter (fun e => idList.contains (e.getattr "id"))

/-- An argument handed to `Query.filter_by`: SQLAlchemy's `filter_by`
accepts only keyword equality pairs (`**kwargs`); passing a criterion
positionally — as `delete_with_id_list` and `update_with_id_list` do —
raises `TypeError` before any query runs. -/
inductive QueryArg where
  | positional (criterion : List Value)
  | keyword (pairs : List (String × Value))
deriving Repr, DecidableEq

/-- `Query.filter_by(arg)`: keyword pairs build an equality filter, a
positional criterion is a `TypeError`. -/
def query_filter_by (arg : QueryArg) :
    Except DbErr (List (String × Value)) :=
  match arg with
  | QueryArg.keyword pairs => Except.ok pairs
  | QueryArg.positional _ => Except.error DbErr.typeError

/-- `BaseRepository.delete_with_id_list(id_list)` as written:
`query(model).filter_by(model.id.in_(id_list)).delete(...)` then
`commit()`.  The `filter_by` call receives the membership criterion
positionally and raises `TypeError`; the delete and commit in the
success branch are what would run had `filter_by` accepted it. -/
def BaseRepository.delete_with_id_list (w : World)
    (idList : List Value) : World × Option DbErr :=
  match query_filter_by (QueryArg.positional idList) with
  | Except.error e => (w, some e)
  | Except.ok _ =>
      let keep := fun (e : BaseObject) => !(idList.contains (e.getattr "id"))
      let w := { w with committed := w.committed.filter keep,
                        flushed := w.flushed.filter keep,
                        events := w.events ++ [Event.queryDelete] }
      (sessCommit w, Option.none)

/-- `BaseRepository.delete(element)`: `session.delete(element)` then
`session.commit()`. -/
def BaseRepository.delete (w : World) (element : BaseObject) : World :=
  let keep := fun (e : BaseObject) => e.objId != element.objId
  let w := { w with committed := w.committed.filter keep,
                    flushed := w.flushed.filter keep,
                    pending := w.pending.filter keep,
                    events := w.events ++ [Event.sessDelete] }
  sessCommit w

/-- `BaseRepository.update_with_attr(query_attr, update_attr)`:
`update_attr.update(gmt_modified=now)`, then a bulk SQL `UPDATE` of the
rows matching the equality conjunction (a raw store write that bypasses
`__setattr__`), then `commit()`. -/
def BaseRepository.update_with_attr (w : World)
    (queryAttr : List (String × Value)) (updateAttr : Dict) : World :=
  let c := readClock w
  let updateAttr := dset updateAttr DATA_MODIFIED (Value.vint c.1)
  let w := c.2
  let applyUpd := fun (e : BaseObject) =>
    if queryAttr.all (fun kv => e.getattr kv.1 == kv.2) then
      { e with fields := dictUpdate e.fields updateAttr }
    else e
  let w := { w with committed := w.committed.map applyUpd,
                    flushed := w.flushed.map applyUpd,
                    events := w.events ++ [Event.queryUpdate] }
  sessCommit w

/-- `BaseRepository.insert_or_update(element, count)`: raise `Internal`
once `count` exceeds `DB_MAX_TRY`; otherwise generate a fresh id when
the element has none and the schema does not auto-increment, stamp
`gmt_modified`, add and flush; an `IntegrityError` clears the id and
retries with `count + 1`, any other exception is logged and raised as
`Internal`. -/
def BaseRepository.insert_or_update (model : Schema)
    (timeKeys : List String) (maxTry : Nat) (w : World)
    (element : BaseObject) (count : Nat) :
    World × BaseObject × Option DbErr :=
  if _h : count > maxTry then
    (logError w dbFailMsg, element, some (DbErr.internal dbFailMsg))
  else
    let step :=
      if (element.getattr "id").truthy = false ∧
          model.idAutoincrement = false then
        let g := genUuid w
        (g.2, element.setattr timeKeys "id" (Value.vstr g.1))
      else (w, element)
    let w := step.1
    let element := step.2
    let c := readClock w
    let now := c.1
    let w := c.2
    let element :=
      if element.hasattr DATA_MODIFIED then
        element.setattr timeKeys DATA_MODIFIED (Value.vint now)
      else element
    let w := sessAdd w element
    let f := sessFlush w
    match f with
    | (FlushOutcome.ok, w) => (w, element, Option.none)
    | (FlushOutcome.integrityError, w) =>
        let element := element.setattr timeKeys "id" Value.vnone
        BaseRepository.insert_or_update model timeKeys maxTry w element
          (count + 1)
    | (FlushOutcome.otherError, w) =>
        (logError w dbFailMsg, element, some (DbErr.internal dbFailMsg))
termination_by maxTry + 1 - count
decreasing_by simp_wf; omega

/-- The `for index, element in enumerate(bulk)` loop of
`insert_or_update_batch`: assign `id_list[index]` when ids are not
auto-incremented, then stamp `gmt_modified` with the shared reading. -/
def assignBulk (timeKeys : List String) (autoIncrement : Bool)
    (idList : List String) (now : Int) :
    Nat → List BaseObject → List BaseObject
  | _, [] => []
  | index, element :: rest =>
      let element :=
        if autoIncrement = false then
          element.setattr timeKeys "id" (Value.vstr (idList.getD index ""))
        else element
      let element :=
        if element.hasattr DATA_MODIFIED then
          element.setattr timeKeys DATA_MODIFIED (Value.vint now)
        else element
      element :: assignBulk timeKeys autoIncrement idList now (index + 1) rest

/-- `BaseRepository.insert_or_update_batch(bulk, count)`: no-op on `[]`;
raise `Internal` once `count` exceeds `DB_MAX_TRY`; decide
auto-increment once from the first element and, when generating,
produce one id per element; stamp the whole batch with one clock
reading; bulk-save and flush; an `IntegrityError` rolls back, clears
every id and retries; there is no handler for other exceptions, which
therefore propagate as the raw store error. -/
def BaseRepository.insert_or_update_batch (model : Schema)
    (timeKeys : List String) (maxTry : Nat) (w : World)
    (bulk : List BaseObject) (count : Nat) :
    World × List BaseObject × Option DbErr :=
  match bulk with
  | [] => (w, [], Option.none)
  | check :: rest =>
    if _h : count > maxTry then
      (logError w dbFailMsg, check :: rest, some (DbErr.internal dbFailMsg))
    else
      let step :=
        if (check.getattr "id").truthy = false ∧
            model.idAutoincrement = false then
          let g := genUuidN w (check :: rest).length
          (false, g.1, g.2)
        else (true, ([] : List String), w)
      let autoIncrement := step.1
      let idList := step.2.1
      let w := step.2.2
      let c := readClock w
      let now := c.1
      let w := c.2
      let bulk := assignBulk timeKeys autoIncrement idList now 0 (check :: rest)
      let f := bulkSaveFlush w bulk
      match f with
      | (FlushOutcome.ok, w) => (w, bulk, Option.none)
      | (FlushOutcome.integrityError, w) =>
          let w := sessRollback w
          let bulk := bulk.map (fun e => e.setattr timeKeys "id" Value.vnone)
          BaseRepository.insert_or_update_batch model timeKeys maxTry w bulk
            (count + 1)
      | (FlushOutcome.otherError, w) => (w, bulk, some DbErr.storeErr)
termination_by maxTry + 1 - count
decreasing_by simp_wf; omega

/-! ## The prepare phase of one `insert_or_update` attempt -/

/-- The id-generation phase of an `insert_or_update` attempt: generate
and assign a fresh id when the element has none and the schema does not
auto-increment. -/
def genPhase (model : Schema) (timeKeys : List String) (w : World)
    (e : BaseObject) : World × BaseObject :=
  if (e.getattr "id").truthy = false ∧ model.idAutoincrement = false then
    ((genUuid w).2,
      BaseObject.setattr timeKeys e "id" (Value.vstr (genUuid w).1))
  else (w, e)

/-- The `gmt_modified` stamping phase of an `insert_or_update`
attempt. -/
def stampPhase (timeKeys : List String) (now : Int) (e : BaseObject) :
    BaseObject :=
  if e.hasattr DATA_MODIFIED then
    BaseObject.setattr timeKeys e DATA_MODIFIED (Value.vint now)
  else e

/-- The state and element mutations an `insert_or_update` attempt
performs before flushing: optional id generation, `gmt_modified`
stamping, and `session.add`. -/
def prepStep (model : Schema) (timeKeys : List String) (w : World)
    (e : BaseObject) : World × BaseObject :=
  let g := genPhase model timeKeys w e
  let e2 := stampPhase timeKeys (readClock g.1).1 g.2
  (sessAdd (readClock g.1).2 e2, e2)

/-! ## The prepare phase of one `insert_or_update_batch` attempt -/

/-- The mutations a batch attempt performs before the bulk save: the
auto-increment decision from the first element, id generation for the
whole batch, and the assignment loop with the shared clock reading. -/
def prepBatch (model : Schema) (timeKeys : List String) (w : World)
    (check : BaseObject) (rest : List BaseObject) :
    World × List BaseObject :=
  if (check.getattr "id").truthy = false ∧
      model.idAutoincrement = false then
    ((readClock (genUuidN w (check :: rest).length).2).2,
     assignBulk timeKeys false (genUuidN w (check :: rest).length).1
       (genUuidN w (check :: rest).length).2.clock 0 (check :: rest))
  else
    ((readClock w).2, assignBulk timeKeys true [] w.clock 0 (check :: rest))

/-! ## Dictionary lemmas -/

theorem dlookup_dset (d : Dict) (k k' : String) (v : Value) :
    dlookup (dset d k v) k' = if k' = k then some v else dlookup d k' := by
  induction d with
  | nil =>
      by_cases h : k' = k
      · subst h; simp [dset, dlookup]
      · simp [dset, dlookup, h, Ne.symm h]
  | cons p rest ih =>
      obtain ⟨a, b⟩ := p
      by_cases hak : a = k
      · subst hak
        by_cases h : k' = a <;> simp [dset, dlookup, h, eq_comm]
      · by_cases h : k' = a
        · subst h
          simp [dset, dlookup, hak, Ne.symm hak]
        · simp [dset, dlookup, hak, h, ih, eq_comm]

theorem dlookup_eq_none_of_not_mem (d : Dict) (k : String)
    (h : k ∉ d.map Prod.fst) : dlookup d k = Option.none := by
  induction d with
  | nil => rfl
  | cons p rest ih =>
      obtain ⟨a, b⟩ := p
      simp only [List.map_cons, List.mem_cons, not_or] at h
      simp [dlookup, Ne.symm h.1, ih h.2]

theorem dlookup_dictUpdate (upd : Dict) (k : String)
    (hnd : (upd.map Prod.fst).Nodup) :
    ∀ d : Dict, dlookup (dictUpdate d upd) k =
      (dlookup upd k).or (dlookup d k) := by
  induction upd with
  | nil => intro d; simp [dictUpdate, dlookup]
  | cons p rest ih =>
      intro d
      obtain ⟨a, b⟩ := p
      simp only [List.map_cons, List.nodup_cons] at hnd
      have step : dictUpdate d ((a, b) :: rest) = dictUpdate (dset d a b) rest := by
        simp [dictUpdate]
      rw [step, ih hnd.2, dlookup_dset]
      by_cases hka : k = a
      · subst hka
        rw [dlookup_eq_none_of_not_mem rest k hnd.1]
        simp [dlookup]
      · simp [dlookup, Ne.symm hka, hka]

theorem to_dict_foldl_lookup (timeKeys : List String)
    (excluded : List String) (e : BaseObject) (key : String) :
    ∀ (cols : List String) (d0 : Dict),
      dlookup (cols.foldl (to_dict_step timeKeys excluded e) d0) key =
        if key ∈ cols ∧ key ∉ excluded then
          some (processedColumn timeKeys e key)
        else dlookup d0 key := by
  intro cols
  induction cols with
  | nil => intro d0; simp
  | cons c cols ih =>
      intro d0
      rw [List.foldl_cons, ih]
      by_cases hc : c ∈ excluded
      · have hstep : to_dict_step timeKeys excluded e d0 c = d0 := by
          simp [to_dict_step, hc]
        rw [hstep]
        by_cases hkc : key = c
        · subst hkc
          simp [hc]
        · by_cases hmem : key ∈ cols ∧ key ∉ excluded
          · simp [hmem]
          · simp [hkc, hmem]
      · have hstep : to_dict_step timeKeys excluded e d0 c =
            dset d0 c (processedColumn timeKeys e c) := by
          simp [to_dict_step, hc]
        rw [hstep, dlookup_dset]
        by_cases hkc : key = c
        · subst hkc
          simp [hc]
        · by_cases hmem : key ∈ cols ∧ key ∉ excluded
          · simp [hkc, hmem]
          · simp [hkc, hmem]

theorem dlookup_to_dict (timeKeys : List String) (schema : Schema)
    (e : BaseObject) (added : Dict) (excluded : List String)
    (k : String) (hnd : (added.map Prod.fst).Nodup) :
    dlookup (BaseObject.to_dict timeKeys schema e added excluded) k =
      if k ∈ schema.columns ∧ k ∉ excluded then
        some (processedColumn timeKeys e k)
      else dlookup added k := by
  unfold BaseObject.to_dict
  rw [to_dict_foldl_lookup, dlookup_dictUpdate added k hnd]
  simp [dlookup]

/-! ## Claims about serialization (C4, C5, C6) -/

/-- C4: the claim says `dict_list` applies the exclusion list uniformly
so that excluded columns are absent from every returned dict.  The code
calls `obj.to_dict(excluded)`, passing the exclusion list positionally
as the `added` parameter, so no exclusion is applied at all: for the
entity with column `id = "x"` and exclusion list `["id"]`, the returned
dict still contains the `id` column (and additionally the mangled pair
`("i", "d")` that `dict.update` extracts from the two-character string
`"id"`). -/
theorem c4_dict_list_exclusion_not_applied :
    BaseObject.dict_list [] ⟨["id"], false⟩
        [PyObj.inst ⟨0, [("id", Value.vstr "x")]⟩] ["id"] =
      some [[("i", Value.vstr "d"), ("id", Value.vstr "x")]] ∧
    (BaseObject.dict_list [] ⟨["id"], false⟩
        [PyObj.inst ⟨0, [("id", Value.vstr "x")]⟩] ["xyz"] =
      Option.none) := by
  exact ⟨rfl, rfl⟩

/-- C6 counterexample: the claim says the dict returned by `to_dict`
contains no key listed in the exclusion argument and that added keys
colliding with a schema column take the column's value.  With columns
`["id"]`, added `{id: 5, x: 1}` and exclusion `["x", "id"]`, the output
still contains both excluded keys, and the collision on the excluded
column `id` keeps the added value `5` rather than the column's value. -/
theorem c6_to_dict_excluded_counterexample :
    dlookup (BaseObject.to_dict [] ⟨["id"], false⟩
        ⟨0, [("id", Value.vstr "a")]⟩
        [("id", Value.vint 5), ("x", Value.vint 1)] ["x", "id"]) "x" =
      some (Value.vint 1) ∧
    dlookup (BaseObject.to_dict [] ⟨["id"], false⟩
        ⟨0, [("id", Value.vstr "a")]⟩
        [("id", Value.vint 5), ("x", Value.vint 1)] ["x", "id"]) "id" =
      some (Value.vint 5) := by
  exact ⟨rfl, rfl⟩

/-- C6 amended: exclusion governs only the schema-column loop.  For
every entity, added dict (with distinct keys) and exclusion list: an
excluded key that is not in `added` is absent from the output; an added
key that is not a schema column is present with its added value; an
added key colliding with a schema column takes the column's serialized
value when the column is not excluded, and keeps the added value when
it is excluded. -/
theorem c6_to_dict_keys (timeKeys : List String) (schema : Schema)
    (e : BaseObject) (added : Dict) (excluded : List String)
    (k : String) (hnd : (added.map Prod.fst).Nodup) :
    (k ∈ excluded → dlookup added k = Option.none →
      dlookup (BaseObject.to_dict timeKeys schema e added excluded) k =
        Option.none) ∧
    (k ∉ schema.columns →
      dlookup (BaseObject.to_dict timeKeys schema e added excluded) k =
        dlookup added k) ∧
    (k ∈ schema.columns → k ∉ excluded →
      dlookup (BaseObject.to_dict timeKeys schema e added excluded) k =
        some (processedColumn timeKeys e k)) ∧
    (k ∈ schema.columns → k ∈ excluded →
      dlookup (BaseObject.to_dict timeKeys schema e added excluded) k =
        dlookup added k) := by
  refine ⟨?_, ?_, ?_, ?_⟩
  · intro hexc hadd
    rw [dlookup_to_dict timeKeys schema e added excluded k hnd]
    simp [hexc, hadd]
  · intro hcol
    rw [dlookup_to_dict timeKeys schema e added excluded k hnd]
    simp [hcol]
  · intro hcol hexc
    rw [dlookup_to_dict timeKeys schema e added excluded k hnd]
    simp [hcol, hexc]
  · intro hcol hexc
    rw [dlookup_to_dict timeKeys schema e added excluded k hnd]
    simp [hexc]

/-- C6 witness: the amended statement applied with columns `["id"]`,
added `{x: 1}`, exclusion `["y"]` and key `x`. -/
theorem c6_to_dict_keys_witness :
    ((([("x", Value.vint 1)] : Dict).map Prod.fst).Nodup) ∧
    (("x" ∈ (["y"] : List String) →
      dlookup ([("x", Value.vint 1)] : Dict) "x" = Option.none →
      dlookup (BaseObject.to_dict [] ⟨["id"], false⟩
          ⟨0, [("id", Value.vstr "a")]⟩ [("x", Value.vint 1)] ["y"]) "x" =
        Option.none) ∧
    ("x" ∉ (⟨["id"], false⟩ : Schema).columns →
      dlookup (BaseObject.to_dict [] ⟨["id"], false⟩
          ⟨0, [("id", Value.vstr "a")]⟩ [("x", Value.vint 1)] ["y"]) "x" =
        dlookup ([("x", Value.vint 1)] : Dict) "x") ∧
    ("x" ∈ (⟨["id"], false⟩ : Schema).columns → "x" ∉ (["y"] : List String) →
      dlookup (BaseObject.to_dict [] ⟨["id"], false⟩
          ⟨0, [("id", Value.vstr "a")]⟩ [("x", Value.vint 1)] ["y"]) "x" =
        some (processedColumn [] ⟨0, [("id", Value.vstr "a")]⟩ "x")) ∧
    ("x" ∈ (⟨["id"], false⟩ : Schema).columns → "x" ∈ (["y"] : List String) →
      dlookup (BaseObject.to_dict [] ⟨["id"], false⟩
          ⟨0, [("id", Value.vstr "a")]⟩ [("x", Value.vint 1)] ["y"]) "x" =
        dlookup ([("x", Value.vint 1)] : Dict) "x")) :=
  ⟨by decide,
   c6_to_dict_keys [] ⟨["id"], false⟩ ⟨0, [("id", Value.vstr "a")]⟩
     [("x", Value.vint 1)] ["y"] "x" (by decide)⟩

/-- C5 counterexample: the claim says an entity constructed with a
numeric epoch-seconds value for a designated time field reads back as
the corresponding point in time.  But `__init__` installs the
constructor kwargs with `self.__dict__.update(kwargs)`, bypassing
`__setattr__`, so constructing with `gmt_modified = 123` stores the raw
number `123` and not the point-in-time value. -/
theorem c5_init_kwargs_bypass_counterexample :
    (BaseObject.init ["gmt_create", "gmt_modified"] 0
        [("gmt_modified", Value.vint 123)] 7).getattr "gmt_modified" =
      Value.vint 123 ∧
    ¬((BaseObject.init ["gmt_create", "gmt_modified"] 0
        [("gmt_modified", Value.vint 123)] 7).getattr "gmt_modified" =
      Value.vdatetime 123) := by
  exact ⟨rfl, by decide⟩

/-- C5 amended: the round-trip holds for assignments that go through
`__setattr__` (every assignment after construction, and the creation
field the constructor itself sets): assigning the non-zero
epoch-seconds value `V` to a designated time field stores the point in
time `V`, and serializing through `to_dict` yields `V` back; values
handed to the constructor as kwargs bypass the conversion and are
stored raw. -/
theorem c5_time_field_roundtrip (timeKeys : List String)
    (schema : Schema) (e : BaseObject) (key : String) (V : Int)
    (hk : key ∈ timeKeys) (hcol : key ∈ schema.columns) (_hV : V ≠ 0) :
    (e.setattr timeKeys key (Value.vint V)).getattr key =
      Value.vdatetime V ∧
    dlookup (BaseObject.to_dict timeKeys schema
        (e.setattr timeKeys key (Value.vint V)) [] []) key =
      some (Value.vint V) := by
  have hget : (e.setattr timeKeys key (Value.vint V)).getattr key =
      Value.vdatetime V := by
    unfold BaseObject.setattr BaseObject.getattr
    simp only [hk, if_pos, datetimeFromtimestamp]
    rw [dlookup_dset]
    simp
  refine ⟨hget, ?_⟩
  rw [dlookup_to_dict timeKeys schema _ [] [] key (by simp)]
  simp only [hcol, List.not_mem_nil, not_false_iff, and_self, if_pos]
  unfold processedColumn
  rw [hget]
  simp [Value.truthy, hk, datetimeTimestamp]

/-- C5 witness: the amended round-trip applied to the time field
`gmt_modified` with value 123. -/
theorem c5_time_field_roundtrip_witness :
    ("gmt_modified" ∈ ["gmt_create", "gmt_modified"] ∧
     "gmt_modified" ∈ (⟨["id", "gmt_modified"], false⟩ : Schema).columns ∧
     (123 : Int) ≠ 0) ∧
    ((BaseObject.setattr ["gmt_create", "gmt_modified"] ⟨0, []⟩
        "gmt_modified" (Value.vint 123)).getattr "gmt_modified" =
      Value.vdatetime 123 ∧
    dlookup (BaseObject.to_dict ["gmt_create", "gmt_modified"]
        ⟨["id", "gmt_modified"], false⟩
        (BaseObject.setattr ["gmt_create", "gmt_modified"] ⟨0, []⟩
          "gmt_modified" (Value.vint 123)) [] []) "gmt_modified" =
      some (Value.vint 123)) :=
  ⟨⟨by decide, by decide, by decide⟩,
   c5_time_field_roundtrip ["gmt_create", "gmt_modified"]
     ⟨["id", "gmt_modified"], false⟩ ⟨0, []⟩ "gmt_modified" 123
     (by decide) (by decide) (by decide)⟩

/-! ## Claim about bulk delete (C3) -/

/-- C3: the claim says `delete_with_id_list(S)` deletes exactly the
rows with id in `S`, commits, and a subsequent `get_in(S)` is empty.
The code calls `Query.filter_by` with a positional criterion
(`filter_by(self.model.id.in_(id_list))`), which raises `TypeError`
before any delete or commit runs: on a store holding the row with id
`"a"`, the call fails with `TypeError`, the state is unchanged, and
`get_in(["a"])` still returns the row. -/
theorem c3_delete_with_id_list_type_error :
    BaseRepository.delete_with_id_list
        ⟨[⟨0, [("id", Value.vstr "a")]⟩], [], [], [], 0, 0, [], []⟩
        [Value.vstr "a"] =
      (⟨[⟨0, [("id", Value.vstr "a")]⟩], [], [], [], 0, 0, [], []⟩,
        some DbErr.typeError) ∧
    BaseRepository.get_in
        ⟨[⟨0, [("id", Value.vstr "a")]⟩], [], [], [], 0, 0, [], []⟩
        [Value.vstr "a"] =
      [⟨0, [("id", Value.vstr "a")]⟩] := by
  exact ⟨rfl, rfl⟩

/-! ## Attribute and session lemmas -/

theorem getattr_setattr_self (timeKeys : List String) (e : BaseObject)
    (k : String) (v : Value) (hk : k ∉ timeKeys) :
    (BaseObject.setattr timeKeys e k v).getattr k = v := by
  unfold BaseObject.setattr BaseObject.getattr
  simp only [hk, if_neg, if_false]
  rw [dlookup_dset]
  simp

theorem getattr_setattr_other (timeKeys : List String) (e : BaseObject)
    (k k' : String) (v : Value) (hkk : k' ≠ k) :
    (BaseObject.setattr timeKeys e k v).getattr k' = e.getattr k' := by
  unfold BaseObject.setattr BaseObject.getattr
  rw [dlookup_dset]
  simp [hkk]

theorem getattr_setattr_self_time (timeKeys : List String)
    (e : BaseObject) (k : String) (v : Value) (hk : k ∈ timeKeys) :
    (BaseObject.setattr timeKeys e k v).getattr k =
      datetimeFromtimestamp v := by
  unfold BaseObject.setattr BaseObject.getattr
  simp only [hk, if_pos]
  rw [dlookup_dset]
  simp

theorem hasattr_setattr (timeKeys : List String) (e : BaseObject)
    (k k' : String) (v : Value) :
    (BaseObject.setattr timeKeys e k v).hasattr k' =
      (k' = k ∨ e.hasattr k' : Bool) := by
  unfold BaseObject.setattr BaseObject.hasattr
  rw [dlookup_dset]
  by_cases hkk : k' = k <;> simp [hkk]

@[simp] theorem setattr_objId (timeKeys : List String) (e : BaseObject)
    (k : String) (v : Value) :
    (BaseObject.setattr timeKeys e k v).objId = e.objId := rfl

theorem sessFlush_of_cons (w : World) (o : FlushOutcome)
    (tail : List FlushOutcome) (hs : w.flushScript = o :: tail) :
    sessFlush w =
      match o with
      | FlushOutcome.ok =>
          (FlushOutcome.ok,
            { w with flushScript := tail,
                     events := w.events ++ [Event.flush],
                     flushed := w.flushed ++ w.pending, pending := [] })
      | o =>
          (o, { w with flushScript := tail,
                       events := w.events ++ [Event.flush] }) := by
  cases o <;> simp [sessFlush, hs]

theorem bulkSaveFlush_of_cons (w : World) (bulk : List BaseObject)
    (o : FlushOutcome) (tail : List FlushOutcome)
    (hs : w.flushScript = o :: tail) :
    bulkSaveFlush w bulk =
      match o with
      | FlushOutcome.ok =>
          (FlushOutcome.ok,
            { w with flushScript := tail,
                     events := w.events ++ [Event.bulkSave, Event.flush],
                     flushed := w.flushed ++ bulk })
      | o =>
          (o, { w with flushScript := tail,
                       events := w.events ++ [Event.bulkSave, Event.flush] }) := by
  cases o <;> simp [bulkSaveFlush, hs]

theorem insert_or_update_unfold (model : Schema) (timeKeys : List String)
    (maxTry : Nat) (w : World) (e : BaseObject) (count : Nat)
    (hc : ¬ count > maxTry) :
    BaseRepository.insert_or_update model timeKeys maxTry w e count =
      (match sessFlush (prepStep model timeKeys w e).1 with
      | (FlushOutcome.ok, w') => (w', (prepStep model timeKeys w e).2, Option.none)
      | (FlushOutcome.integrityError, w') =>
          BaseRepository.insert_or_update model timeKeys maxTry w'
            (BaseObject.setattr timeKeys (prepStep model timeKeys w e).2
              "id" Value.vnone) (count + 1)
      | (FlushOutcome.otherError, w') =>
          (logError w' dbFailMsg, (prepStep model timeKeys w e).2,
            some (DbErr.internal dbFailMsg))) := by
  rw [BaseRepository.insert_or_update.eq_1, dif_neg hc]
  rfl

theorem genPhase_world (model : Schema) (timeKeys : List String)
    (w : World) (e : BaseObject) :
    (genPhase model timeKeys w e).1.flushScript = w.flushScript ∧
    (genPhase model timeKeys w e).1.flushed = w.flushed ∧
    (genPhase model timeKeys w e).1.committed = w.committed ∧
    (genPhase model timeKeys w e).1.log = w.log ∧
    (genPhase model timeKeys w e).1.events = w.events ∧
    (genPhase model timeKeys w e).1.pending = w.pending ∧
    (genPhase model timeKeys w e).1.clock = w.clock := by
  unfold genPhase
  split <;> simp [genUuid]

theorem genPhase_objId (model : Schema) (timeKeys : List String)
    (w : World) (e : BaseObject) :
    (genPhase model timeKeys w e).2.objId = e.objId := by
  unfold genPhase
  split <;> simp

theorem stampPhase_objId (timeKeys : List String) (now : Int)
    (e : BaseObject) : (stampPhase timeKeys now e).objId = e.objId := by
  unfold stampPhase
  split <;> simp

theorem prepStep_eq (model : Schema) (timeKeys : List String)
    (w : World) (e : BaseObject) :
    prepStep model timeKeys w e =
      (sessAdd (readClock (genPhase model timeKeys w e).1).2
        (stampPhase timeKeys (genPhase model timeKeys w e).1.clock
          (genPhase model timeKeys w e).2),
       stampPhase timeKeys (genPhase model timeKeys w e).1.clock
        (genPhase model timeKeys w e).2) := by
  unfold prepStep readClock
  rfl

theorem prepStep_world (model : Schema) (timeKeys : List String)
    (w : World) (e : BaseObject) :
    (prepStep model timeKeys w e).1.flushScript = w.flushScript ∧
    (prepStep model timeKeys w e).1.flushed = w.flushed ∧
    (prepStep model timeKeys w e).1.committed = w.committed ∧
    (prepStep model timeKeys w e).1.log = w.log ∧
    (prepStep model timeKeys w e).1.events = w.events ++ [Event.add] := by
  obtain ⟨h1, h2, h3, h4, h5, h6, h7⟩ := genPhase_world model timeKeys w e
  rw [prepStep_eq]
  simp [sessAdd, readClock, h1, h2, h3, h4, h5]

theorem prepStep_objId (model : Schema) (timeKeys : List String)
    (w : World) (e : BaseObject) :
    (prepStep model timeKeys w e).2.objId = e.objId := by
  rw [prepStep_eq]
  simp [stampPhase_objId, genPhase_objId]

theorem prepStep_pending (model : Schema) (timeKeys : List String)
    (w : World) (e : BaseObject)
    (hpend : w.pending = [] ∨
      ∃ e0, w.pending = [e0] ∧ e0.objId = e.objId) :
    (prepStep model timeKeys w e).1.pending =
      [(prepStep model timeKeys w e).2] := by
  have hobj := prepStep_objId model timeKeys w e
  obtain ⟨h1, h2, h3, h4, h5, h6, h7⟩ := genPhase_world model timeKeys w e
  rw [prepStep_eq] at hobj ⊢
  rcases hpend with hp | ⟨e0, hp, hobj0⟩ <;>
    simp_all [sessAdd, readClock, h6, hp]

theorem insert_or_update_exhaust (model : Schema) (timeKeys : List String)
    (maxTry : Nat) (rest : List FlushOutcome) :
    ∀ (k count : Nat) (w : World) (e : BaseObject),
      maxTry + 1 - count = k →
      w.flushScript = List.replicate k FlushOutcome.integrityError ++ rest →
      (BaseRepository.insert_or_update model timeKeys maxTry w e count).2.2 =
        some (DbErr.internal dbFailMsg) ∧
      (BaseRepository.insert_or_update model timeKeys maxTry w e count).1.log =
        w.log ++ [dbFailMsg] ∧
      (BaseRepository.insert_or_update model timeKeys maxTry w e count).1.flushed =
        w.flushed ∧
      (BaseRepository.insert_or_update model timeKeys maxTry w e count).1.committed =
        w.committed ∧
      (BaseRepository.insert_or_update model timeKeys maxTry w e count).1.flushScript =
        rest := by
  intro k
  induction k with
  | zero =>
      intro count w e hk hs
      have hc : count > maxTry := by omega
      rw [BaseRepository.insert_or_update.eq_1, dif_pos hc]
      simp only [List.replicate, List.nil_append] at hs
      simp [logError, hs]
  | succ k ih =>
      intro count w e hk hs
      have hc : ¬ count > maxTry := by omega
      rw [insert_or_update_unfold model timeKeys maxTry w e count hc]
      obtain ⟨p1, p2, p3, p4, p5⟩ := prepStep_world model timeKeys w e
      have hs' : (prepStep model timeKeys w e).1.flushScript =
          FlushOutcome.integrityError ::
            (List.replicate k FlushOutcome.integrityError ++ rest) := by
        rw [p1, hs, List.replicate_succ, List.cons_append]
      rw [sessFlush_of_cons _ _ _ hs']
      dsimp only
      obtain ⟨a1, a2, a3, a4, a5⟩ := ih (count + 1)
        ({ (prepStep model timeKeys w e).1 with
            flushScript := List.replicate k FlushOutcome.integrityError ++ rest,
            events := (prepStep model timeKeys w e).1.events ++ [Event.flush] })
        (BaseObject.setattr timeKeys (prepStep model timeKeys w e).2 "id"
          Value.vnone)
        (by omega) (by simp)
      refine ⟨a1, ?_, ?_, ?_, a5⟩
      · rw [a2]; simp [p4]
      · rw [a3]; simp [p2]
      · rw [a4]; simp [p3]

theorem stampPhase_getattr_id (timeKeys : List String) (now : Int)
    (e : BaseObject) :
    (stampPhase timeKeys now e).getattr "id" = e.getattr "id" := by
  unfold stampPhase
  split
  · exact getattr_setattr_other timeKeys e DATA_MODIFIED "id" _ (by decide)
  · rfl

theorem genPhase_fresh (model : Schema) (timeKeys : List String)
    (w : World) (e : BaseObject)
    (hid : (e.getattr "id").truthy = false)
    (hauto : model.idAutoincrement = false) :
    genPhase model timeKeys w e =
      ((genUuid w).2,
        BaseObject.setattr timeKeys e "id"
          (Value.vstr (uuid4hex w.uuidCtr))) := by
  unfold genPhase
  rw [if_pos ⟨hid, hauto⟩]
  rfl

theorem prepStep_fresh (model : Schema) (timeKeys : List String)
    (w : World) (e : BaseObject)
    (hid : (e.getattr "id").truthy = false)
    (hauto : model.idAutoincrement = false)
    (hidtk : "id" ∉ timeKeys) :
    (prepStep model timeKeys w e).2.getattr "id" =
      Value.vstr (uuid4hex w.uuidCtr) ∧
    (prepStep model timeKeys w e).1.uuidCtr = w.uuidCtr + 1 := by
  rw [prepStep_eq, genPhase_fresh model timeKeys w e hid hauto]
  constructor
  · rw [stampPhase_getattr_id]
    exact getattr_setattr_self timeKeys e "id" _ hidtk
  · simp [sessAdd, readClock, genUuid]

theorem prepStep_gmt (model : Schema) (timeKeys : List String)
    (w : World) (e : BaseObject)
    (hhas : e.hasattr DATA_MODIFIED = true)
    (hdm : DATA_MODIFIED ∈ timeKeys) :
    (prepStep model timeKeys w e).2.getattr DATA_MODIFIED =
      Value.vdatetime w.clock := by
  obtain ⟨g1, g2, g3, g4, g5, g6, g7⟩ := genPhase_world model timeKeys w e
  have hhas2 : (genPhase model timeKeys w e).2.hasattr DATA_MODIFIED = true := by
    unfold genPhase
    split
    · rw [hasattr_setattr]
      simp [hhas]
    · exact hhas
  rw [prepStep_eq]
  unfold stampPhase
  rw [if_pos hhas2, g7, getattr_setattr_self_time timeKeys _ DATA_MODIFIED _ hdm]
  rfl

theorem insert_or_update_success (model : Schema)
    (timeKeys : List String) (maxTry : Nat) (rest : List FlushOutcome)
    (hauto : model.idAutoincrement = false) (hidtk : "id" ∉ timeKeys) :
    ∀ (j count : Nat) (w : World) (e : BaseObject),
      count + j ≤ maxTry →
      w.flushScript = List.replicate j FlushOutcome.integrityError ++
        FlushOutcome.ok :: rest →
      (e.getattr "id").truthy = false →
      (w.pending = [] ∨ ∃ e0, w.pending = [e0] ∧ e0.objId = e.objId) →
      (BaseRepository.insert_or_update model timeKeys maxTry w e count).2.2 =
        Option.none ∧
      (BaseRepository.insert_or_update model timeKeys maxTry w e
          count).2.1.getattr "id" =
        Value.vstr (uuid4hex (w.uuidCtr + j)) ∧
      (BaseRepository.insert_or_update model timeKeys maxTry w e
          count).1.flushed =
        w.flushed ++
          [(BaseRepository.insert_or_update model timeKeys maxTry w e
            count).2.1] ∧
      (BaseRepository.insert_or_update model timeKeys maxTry w e
          count).1.flushScript = rest ∧
      (BaseRepository.insert_or_update model timeKeys maxTry w e
          count).1.log = w.log := by
  intro j
  induction j with
  | zero =>
      intro count w e hcount hs hid hpend
      have hc : ¬ count > maxTry := by omega
      rw [insert_or_update_unfold model timeKeys maxTry w e count hc]
      obtain ⟨p1, p2, p3, p4, p5⟩ := prepStep_world model timeKeys w e
      have hs' : (prepStep model timeKeys w e).1.flushScript =
          FlushOutcome.ok :: rest := by
        rw [p1, hs]
        rfl
      rw [sessFlush_of_cons _ _ _ hs']
      dsimp only
      obtain ⟨hfid, hctr⟩ := prepStep_fresh model timeKeys w e hid hauto hidtk
      refine ⟨rfl, ?_, ?_, rfl, p4⟩
      · rw [hfid]
        rfl
      · rw [p2, prepStep_pending model timeKeys w e hpend]
  | succ j ih =>
      intro count w e hcount hs hid hpend
      have hc : ¬ count > maxTry := by omega
      rw [insert_or_update_unfold model timeKeys maxTry w e count hc]
      obtain ⟨p1, p2, p3, p4, p5⟩ := prepStep_world model timeKeys w e
      have hs' : (prepStep model timeKeys w e).1.flushScript =
          FlushOutcome.integrityError ::
            (List.replicate j FlushOutcome.integrityError ++
              FlushOutcome.ok :: rest) := by
        rw [p1, hs, List.replicate_succ, List.cons_append]
      rw [sessFlush_of_cons _ _ _ hs']
      dsimp only
      obtain ⟨hfid, hctr⟩ := prepStep_fresh model timeKeys w e hid hauto hidtk
      have hpend2 := prepStep_pending model timeKeys w e hpend
      obtain ⟨a1, a2, a3, a4, a5⟩ := ih (count + 1)
        ({ (prepStep model timeKeys w e).1 with
            flushScript := List.replicate j FlushOutcome.integrityError ++
              FlushOutcome.ok :: rest,
            events := (prepStep model timeKeys w e).1.events ++ [Event.flush] })
        (BaseObject.setattr timeKeys (prepStep model timeKeys w e).2 "id"
          Value.vnone)
        (by omega) (by simp)
        (by rw [getattr_setattr_self timeKeys _ "id" Value.vnone hidtk]; rfl)
        (by
          right
          exact ⟨(prepStep model timeKeys w e).2, by simp [hpend2], by simp⟩)
      refine ⟨a1, ?_, ?_, a4, ?_⟩
      · rw [a2]
        simp only [hctr]
        have harith : w.uuidCtr + 1 + j = w.uuidCtr + (j + 1) := by omega
        rw [harith]
      · rw [a3]
        simp [p2]
      · rw [a5]
        simp [p4]

theorem insert_or_update_batch_unfold (model : Schema)
    (timeKeys : List String) (maxTry : Nat) (w : World)
    (check : BaseObject) (rest : List BaseObject) (count : Nat)
    (hc : ¬ count > maxTry) :
    BaseRepository.insert_or_update_batch model timeKeys maxTry w
        (check :: rest) count =
      (match bulkSaveFlush (prepBatch model timeKeys w check rest).1
          (prepBatch model timeKeys w check rest).2 with
      | (FlushOutcome.ok, w') =>
          (w', (prepBatch model timeKeys w check rest).2, Option.none)
      | (FlushOutcome.integrityError, w') =>
          BaseRepository.insert_or_update_batch model timeKeys maxTry
            (sessRollback w')
            ((prepBatch model timeKeys w check rest).2.map
              (fun e => e.setattr timeKeys "id" Value.vnone)) (count + 1)
      | (FlushOutcome.otherError, w') =>
          (w', (prepBatch model timeKeys w check rest).2,
            some DbErr.storeErr)) := by
  rw [BaseRepository.insert_or_update_batch.eq_2, dif_neg hc]
  by_cases hcond : (check.getattr "id").truthy = false ∧
      model.idAutoincrement = false
  · rw [if_pos hcond]
    unfold prepBatch
    rw [if_pos hcond]
    rfl
  · rw [if_neg hcond]
    unfold prepBatch
    rw [if_neg hcond]
    rfl

theorem genUuidN_world (n : Nat) : ∀ w : World,
    (genUuidN w n).2.flushScript = w.flushScript ∧
    (genUuidN w n).2.flushed = w.flushed ∧
    (genUuidN w n).2.committed = w.committed ∧
    (genUuidN w n).2.log = w.log ∧
    (genUuidN w n).2.events = w.events ∧
    (genUuidN w n).2.pending = w.pending ∧
    (genUuidN w n).2.clock = w.clock ∧
    (genUuidN w n).2.uuidCtr = w.uuidCtr + n := by
  induction n with
  | zero => intro w; simp [genUuidN]
  | succ n ih =>
      intro w
      obtain ⟨h1, h2, h3, h4, h5, h6, h7, h8⟩ :=
        ih { w with uuidCtr := w.uuidCtr + 1 }
      have h8' : (genUuidN { w with uuidCtr := w.uuidCtr + 1 } n).2.uuidCtr =
          w.uuidCtr + 1 + n := h8
      unfold genUuidN genUuid
      dsimp only
      exact ⟨h1, h2, h3, h4, h5, h6, h7, by rw [h8']; omega⟩

theorem genUuidN_ids (n : Nat) : ∀ w : World,
    (genUuidN w n).1 =
      (List.range n).map (fun i => uuid4hex (w.uuidCtr + i)) := by
  induction n with
  | zero => intro w; simp [genUuidN]
  | succ n ih =>
      intro w
      unfold genUuidN genUuid
      dsimp only
      rw [ih { w with uuidCtr := w.uuidCtr + 1 },
        List.range_succ_eq_map, List.map_cons, List.map_map]
      refine congrArg₂ List.cons (by rw [Nat.add_zero]) ?_
      refine List.map_congr_left (fun i _ => ?_)
      show uuid4hex (w.uuidCtr + 1 + i) = uuid4hex (w.uuidCtr + (i + 1))
      exact congrArg uuid4hex (by omega)

theorem assignBulk_length (timeKeys : List String)
    (autoIncrement : Bool) (idList : List String) (now : Int) :
    ∀ (l : List BaseObject) (idx : Nat),
      (assignBulk timeKeys autoIncrement idList now idx l).length =
        l.length := by
  intro l
  induction l with
  | nil => intro idx; rfl
  | cons e rest ih =>
      intro idx
      unfold assignBulk
      simp only [List.length_cons, ih (idx + 1)]

theorem uuid4hex_injective : Function.Injective uuid4hex := by
  intro m n h
  have hl := congrArg String.length h
  simp [uuid4hex, String.length] at hl
  exact hl

theorem uuid4hex_ne_empty (n : Nat) : uuid4hex n ≠ "" := by
  intro h
  have hl := congrArg String.length h
  simp [uuid4hex, String.length] at hl

theorem stampPhase_hasattr (timeKeys : List String) (now : Int)
    (e : BaseObject) (hhas : e.hasattr DATA_MODIFIED = true) :
    stampPhase timeKeys now e =
      BaseObject.setattr timeKeys e DATA_MODIFIED (Value.vint now) := by
  unfold stampPhase
  rw [if_pos hhas]

theorem assignBulk_head_gmt (timeKeys : List String)
    (autoIncrement : Bool) (idList : List String) (now : Int)
    (idx : Nat) (e : BaseObject) (hdm : DATA_MODIFIED ∈ timeKeys)
    (hhas : e.hasattr DATA_MODIFIED = true) :
    (stampPhase timeKeys now
        (if autoIncrement = false then
          e.setattr timeKeys "id" (Value.vstr (idList.getD idx ""))
        else e)).getattr DATA_MODIFIED = Value.vdatetime now := by
  have hhas1 : (if autoIncrement = false then
      e.setattr timeKeys "id" (Value.vstr (idList.getD idx ""))
    else e).hasattr DATA_MODIFIED = true := by
    split
    · rw [hasattr_setattr]
      simp [hhas]
    · exact hhas
  rw [stampPhase_hasattr timeKeys now _ hhas1,
    getattr_setattr_self_time timeKeys _ DATA_MODIFIED _ hdm]
  rfl

theorem assignBulk_gmt (timeKeys : List String) (autoIncrement : Bool)
    (idList : List String) (now : Int) (hdm : DATA_MODIFIED ∈ timeKeys) :
    ∀ (l : List BaseObject) (idx : Nat),
      (∀ e ∈ l, e.hasattr DATA_MODIFIED = true) →
      ∀ e' ∈ assignBulk timeKeys autoIncrement idList now idx l,
        e'.getattr DATA_MODIFIED = Value.vdatetime now := by
  intro l
  induction l with
  | nil =>
      intro idx h e' he'
      simp [assignBulk] at he'
  | cons e rest ih =>
      intro idx h e' he'
      unfold assignBulk at he'
      dsimp only at he'
      rcases List.mem_cons.mp he' with heq | hmem
      · rw [heq]
        exact assignBulk_head_gmt timeKeys autoIncrement idList now idx e
          hdm (h e (List.mem_cons_self e rest))
      · exact ih (idx + 1) (fun x hx => h x (List.mem_cons_of_mem e hx))
          e' hmem

theorem assignBulk_ids (timeKeys : List String) (idList : List String)
    (now : Int) (hidtk : "id" ∉ timeKeys) :
    ∀ (l : List BaseObject) (idx : Nat),
      (assignBulk timeKeys false idList now idx l).map
          (fun e => e.getattr "id") =
        (List.range l.length).map
          (fun i => Value.vstr (idList.getD (idx + i) "")) := by
  intro l
  induction l with
  | nil => intro idx; simp [assignBulk]
  | cons e rest ih =>
      intro idx
      unfold assignBulk
      dsimp only
      rw [List.map_cons, ih (idx + 1), List.length_cons,
        List.range_succ_eq_map, List.map_cons, List.map_map]
      refine congrArg₂ List.cons ?_ ?_
      · show (stampPhase timeKeys now
            (if (false : Bool) = false then
              e.setattr timeKeys "id" (Value.vstr (idList.getD idx ""))
            else e)).getattr "id" =
          Value.vstr (idList.getD (idx + 0) "")
        rw [if_pos rfl, stampPhase_getattr_id,
          getattr_setattr_self timeKeys e "id" _ hidtk, Nat.add_zero]
      · refine List.map_congr_left (fun i _ => ?_)
        show Value.vstr (idList.getD (idx + 1 + i) "") =
          Value.vstr (idList.getD (idx + (i + 1)) "")
        rw [show idx + 1 + i = idx + (i + 1) from by omega]

theorem prepBatch_world (model : Schema) (timeKeys : List String)
    (w : World) (check : BaseObject) (rest : List BaseObject) :
    (prepBatch model timeKeys w check rest).1.flushScript = w.flushScript ∧
    (prepBatch model timeKeys w check rest).1.flushed = w.flushed ∧
    (prepBatch model timeKeys w check rest).1.committed = w.committed ∧
    (prepBatch model timeKeys w check rest).1.log = w.log ∧
    (prepBatch model timeKeys w check rest).1.events = w.events ∧
    (prepBatch model timeKeys w check rest).1.pending = w.pending := by
  obtain ⟨g1, g2, g3, g4, g5, g6, g7, g8⟩ :=
    genUuidN_world (check :: rest).length w
  simp only [List.length_cons] at g1 g2 g3 g4 g5 g6
  unfold prepBatch
  split <;> simp [readClock, g1, g2, g3, g4, g5, g6]

theorem prepBatch_length (model : Schema) (timeKeys : List String)
    (w : World) (check : BaseObject) (rest : List BaseObject) :
    (prepBatch model timeKeys w check rest).2.length =
      (check :: rest).length := by
  unfold prepBatch
  split <;> simp [assignBulk_length]

theorem prepBatch_ids (model : Schema) (timeKeys : List String)
    (w : World) (check : BaseObject) (rest : List BaseObject)
    (hid : (check.getattr "id").truthy = false)
    (hauto : model.idAutoincrement = false)
    (hidtk : "id" ∉ timeKeys) :
    (prepBatch model timeKeys w check rest).2.map
        (fun e => e.getattr "id") =
      (List.range (check :: rest).length).map
        (fun i => Value.vstr (uuid4hex (w.uuidCtr + i))) := by
  unfold prepBatch
  rw [if_pos ⟨hid, hauto⟩]
  dsimp only
  rw [assignBulk_ids timeKeys _ _ hidtk (check :: rest) 0, genUuidN_ids]
  refine List.map_congr_left (fun i hi => ?_)
  have hi' : i < (check :: rest).length := List.mem_range.mp hi
  rw [Nat.zero_add]
  congr 1
  rw [List.getD_eq_getElem?_getD, List.getElem?_map, List.getElem?_range hi']
  rfl

theorem prepBatch_gmt (model : Schema) (timeKeys : List String)
    (w : World) (check : BaseObject) (rest : List BaseObject)
    (hdm : DATA_MODIFIED ∈ timeKeys)
    (hhas : ∀ e ∈ check :: rest, e.hasattr DATA_MODIFIED = true) :
    ∀ e' ∈ (prepBatch model timeKeys w check rest).2,
      e'.getattr DATA_MODIFIED = Value.vdatetime w.clock := by
  obtain ⟨g1, g2, g3, g4, g5, g6, g7, g8⟩ :=
    genUuidN_world (check :: rest).length w
  intro e' he'
  unfold prepBatch at he'
  split at he'
  · dsimp only at he'
    rw [g7] at he'
    exact assignBulk_gmt timeKeys false _ w.clock hdm (check :: rest) 0
      hhas e' he'
  · dsimp only at he'
    exact assignBulk_gmt timeKeys true [] w.clock hdm (check :: rest) 0
      hhas e' he'

theorem insert_or_update_batch_exhaust (model : Schema)
    (timeKeys : List String) (maxTry : Nat) (rest : List FlushOutcome) :
    ∀ (k count : Nat) (w : World) (check : BaseObject)
      (bs : List BaseObject),
      maxTry + 1 - count = k →
      w.flushScript = List.replicate k FlushOutcome.integrityError ++ rest →
      (BaseRepository.insert_or_update_batch model timeKeys maxTry w
          (check :: bs) count).2.2 = some (DbErr.internal dbFailMsg) ∧
      (BaseRepository.insert_or_update_batch model timeKeys maxTry w
          (check :: bs) count).1.log = w.log ++ [dbFailMsg] := by
  intro k
  induction k with
  | zero =>
      intro count w check bs hk hs
      have hc : count > maxTry := by omega
      rw [BaseRepository.insert_or_update_batch.eq_2, dif_pos hc]
      simp [logError]
  | succ k ih =>
      intro count w check bs hk hs
      have hc : ¬ count > maxTry := by omega
      rw [insert_or_update_batch_unfold model timeKeys maxTry w check bs
        count hc]
      obtain ⟨p1, p2, p3, p4, p5, p6⟩ :=
        prepBatch_world model timeKeys w check bs
      have hs' : (prepBatch model timeKeys w check bs).1.flushScript =
          FlushOutcome.integrityError ::
            (List.replicate k FlushOutcome.integrityError ++ rest) := by
        rw [p1, hs, List.replicate_succ, List.cons_append]
      rw [bulkSaveFlush_of_cons _ _ _ _ hs']
      dsimp only
      rcases hb : (prepBatch model timeKeys w check bs).2.map
          (fun e => e.setattr timeKeys "id" Value.vnone) with _ | ⟨c', bs'⟩
      · exfalso
        have hlen := prepBatch_length model timeKeys w check bs
        apply_fun List.length at hb
        simp [hlen] at hb
      · rw [hb]
        obtain ⟨a1, a2⟩ := ih (count + 1)
          (sessRollback
            { (prepBatch model timeKeys w check bs).1 with
                flushScript :=
                  List.replicate k FlushOutcome.integrityError ++ rest,
                events := (prepBatch model timeKeys w check bs).1.events ++
                  [Event.bulkSave, Event.flush] })
          c' bs' (by omega) (by simp [sessRollback])
        refine ⟨a1, ?_⟩
        rw [a2]
        simp [sessRollback, p4]

theorem insert_or_update_otherError (model : Schema)
    (timeKeys : List String) (maxTry : Nat) (w : World) (e : BaseObject)
    (count : Nat) (tail : List FlushOutcome) (hc : count ≤ maxTry)
    (hs : w.flushScript = FlushOutcome.otherError :: tail) :
    BaseRepository.insert_or_update model timeKeys maxTry w e count =
      ({ (prepStep model timeKeys w e).1 with
          flushScript := tail,
          events := (prepStep model timeKeys w e).1.events ++ [Event.flush],
          log := (prepStep model timeKeys w e).1.log ++ [dbFailMsg] },
        (prepStep model timeKeys w e).2,
        some (DbErr.internal dbFailMsg)) := by
  rw [insert_or_update_unfold model timeKeys maxTry w e count (by omega)]
  have hs' : (prepStep model timeKeys w e).1.flushScript =
      FlushOutcome.otherError :: tail := by
    rw [(prepStep_world model timeKeys w e).1, hs]
  rw [sessFlush_of_cons _ _ _ hs']
  rfl

theorem insert_or_update_batch_otherError (model : Schema)
    (timeKeys : List String) (maxTry : Nat) (w : World)
    (check : BaseObject) (bs : List BaseObject) (count : Nat)
    (tail : List FlushOutcome) (hc : count ≤ maxTry)
    (hs : w.flushScript = FlushOutcome.otherError :: tail) :
    (BaseRepository.insert_or_update_batch model timeKeys maxTry w
        (check :: bs) count).2.2 = some DbErr.storeErr ∧
    (BaseRepository.insert_or_update_batch model timeKeys maxTry w
        (check :: bs) count).1.log = w.log := by
  rw [insert_or_update_batch_unfold model timeKeys maxTry w check bs count
    (by omega)]
  obtain ⟨p1, p2, p3, p4, p5, p6⟩ := prepBatch_world model timeKeys w check bs
  have hs' : (prepBatch model timeKeys w check bs).1.flushScript =
      FlushOutcome.otherError :: tail := by
    rw [p1, hs]
  rw [bulkSaveFlush_of_cons _ _ _ _ hs']
  dsimp only
  exact ⟨rfl, by simp [p4]⟩

theorem sessFlush_of_nil (w : World) (hs : w.flushScript = []) :
    sessFlush w = (FlushOutcome.ok,
      { w with flushScript := [], events := w.events ++ [Event.flush],
               flushed := w.flushed ++ w.pending, pending := [] }) := by
  simp [sessFlush, hs]

theorem insert_or_update_events (model : Schema)
    (timeKeys : List String) (maxTry : Nat) :
    ∀ (k count : Nat) (w : World) (e : BaseObject),
      maxTry + 1 - count = k →
      ∃ t, (BaseRepository.insert_or_update model timeKeys maxTry w e
          count).1.events = w.events ++ t ∧
        ∀ ev ∈ t, ev = Event.add ∨ ev = Event.flush := by
  intro k
  induction k with
  | zero =>
      intro count w e hk
      have hc : count > maxTry := by omega
      rw [BaseRepository.insert_or_update.eq_1, dif_pos hc]
      exact ⟨[], by simp [logError], by simp⟩
  | succ k ih =>
      intro count w e hk
      have hc : ¬ count > maxTry := by omega
      rw [insert_or_update_unfold model timeKeys maxTry w e count hc]
      obtain ⟨p1, p2, p3, p4, p5⟩ := prepStep_world model timeKeys w e
      rcases hsp : (prepStep model timeKeys w e).1.flushScript with _ | ⟨o, tail⟩
      · rw [sessFlush_of_nil _ hsp]
        dsimp only
        refine ⟨[Event.add, Event.flush], by simp [p5], ?_⟩
        intro ev hev
        simpa using hev
      · cases o
        · rw [sessFlush_of_cons _ _ _ hsp]
          dsimp only
          refine ⟨[Event.add, Event.flush], by simp [p5], ?_⟩
          intro ev hev
          simpa using hev
        · rw [sessFlush_of_cons _ _ _ hsp]
          dsimp only
          obtain ⟨t, ht1, ht2⟩ := ih (count + 1)
            ({ (prepStep model timeKeys w e).1 with
                flushScript := tail,
                events := (prepStep model timeKeys w e).1.events ++
                  [Event.flush] })
            (BaseObject.setattr timeKeys (prepStep model timeKeys w e).2
              "id" Value.vnone)
            (by omega)
          refine ⟨[Event.add, Event.flush] ++ t, ?_, ?_⟩
          · rw [ht1]
            simp [p5]
          · intro ev hev
            rcases List.mem_append.mp hev with h | h
            · simpa using h
            · exact ht2 ev h
        · rw [sessFlush_of_cons _ _ _ hsp]
          dsimp only
          refine ⟨[Event.add, Event.flush], ?_, ?_⟩
          · simp [logError, p5]
          · intro ev hev
            simpa using hev

/-! ## Claims about the retry paths (C1, C2, C7, C8, C9, C10) -/

/-- C1: for every forced id-collision sequence exhausting the retry
budget `DB_MAX_TRY`, `insert_or_update` raises the fatal internal
error, appends exactly one error log line, and leaves the flushed and
committed row sets unchanged (nothing persisted); and for a forced
sequence of `N - 1` collisions followed by success with `N` within the
budget, it succeeds, the element carries the `N`-th generated
identifier, the element is flushed, and exactly `N` scripted flush
outcomes are consumed. -/
theorem c1_insert_or_update_retry (model : Schema)
    (timeKeys : List String) (maxTry N : Nat) (w wS : World)
    (e eS : BaseObject) (rest restS : List FlushOutcome)
    (hauto : model.idAutoincrement = false) (hidtk : "id" ∉ timeKeys)
    (hscript : w.flushScript =
      List.replicate maxTry FlushOutcome.integrityError ++ rest)
    (hN : 1 ≤ N) (hNle : N ≤ maxTry)
    (hscriptS : wS.flushScript =
      List.replicate (N - 1) FlushOutcome.integrityError ++
        FlushOutcome.ok :: restS)
    (hidS : (eS.getattr "id").truthy = false)
    (hpendS : wS.pending = []) :
    ((BaseRepository.insert_or_update model timeKeys maxTry w e 1).2.2 =
        some (DbErr.internal dbFailMsg) ∧
      (BaseRepository.insert_or_update model timeKeys maxTry w e 1).1.log =
        w.log ++ [dbFailMsg] ∧
      (BaseRepository.insert_or_update model timeKeys maxTry w e 1).1.flushed =
        w.flushed ∧
      (BaseRepository.insert_or_update model timeKeys maxTry w e 1).1.committed =
        w.committed) ∧
    ((BaseRepository.insert_or_update model timeKeys maxTry wS eS 1).2.2 =
        Option.none ∧
      (BaseRepository.insert_or_update model timeKeys maxTry wS eS
          1).2.1.getattr "id" =
        Value.vstr (uuid4hex (wS.uuidCtr + (N - 1))) ∧
      (BaseRepository.insert_or_update model timeKeys maxTry wS eS
          1).1.flushed =
        wS.flushed ++
          [(BaseRepository.insert_or_update model timeKeys maxTry wS eS
            1).2.1] ∧
      (BaseRepository.insert_or_update model timeKeys maxTry wS eS
          1).1.flushScript = restS) := by
  constructor
  · obtain ⟨a1, a2, a3, a4, a5⟩ := insert_or_update_exhaust model timeKeys
      maxTry rest maxTry 1 w e (by omega) hscript
    exact ⟨a1, a2, a3, a4⟩
  · obtain ⟨b1, b2, b3, b4, b5⟩ := insert_or_update_success model timeKeys
      maxTry restS hauto hidtk (N - 1) 1 wS eS (by omega) hscriptS hidS
      (Or.inl hpendS)
    exact ⟨b1, b2, b3, b4⟩

/-- C10: on the fatal (non-collision) flush-failure path,
`insert_or_update` raises the internal error but leaves the element
mutated: it still carries the freshly generated id and the updated
`gmt_modified` that were assigned before the failed flush. -/
theorem c10_fatal_path_keeps_mutation (model : Schema)
    (timeKeys : List String) (maxTry : Nat) (w : World) (e : BaseObject)
    (tail : List FlushOutcome)
    (hauto : model.idAutoincrement = false) (hidtk : "id" ∉ timeKeys)
    (hdm : DATA_MODIFIED ∈ timeKeys)
    (hid : (e.getattr "id").truthy = false)
    (hhas : e.hasattr DATA_MODIFIED = true)
    (hmax : 1 ≤ maxTry)
    (hs : w.flushScript = FlushOutcome.otherError :: tail) :
    (BaseRepository.insert_or_update model timeKeys maxTry w e 1).2.2 =
      some (DbErr.internal dbFailMsg) ∧
    (BaseRepository.insert_or_update model timeKeys maxTry w e
        1).2.1.getattr "id" = Value.vstr (uuid4hex w.uuidCtr) ∧
    (BaseRepository.insert_or_update model timeKeys maxTry w e
        1).2.1.getattr DATA_MODIFIED = Value.vdatetime w.clock := by
  rw [insert_or_update_otherError model timeKeys maxTry w e 1 tail hmax hs]
  obtain ⟨f1, f2⟩ := prepStep_fresh model timeKeys w e hid hauto hidtk
  exact ⟨rfl, f1, prepStep_gmt model timeKeys w e hhas hdm⟩

/-- C2 counterexample: the claim says that once the retry budget is
exceeded on the batch path there is no code path that raises, and that
a non-empty batch whose flush always fails with a constraint violation
falls through without raising.  With budget 2 and a flush script of two
integrity errors, the third recursive call trips the `count > DB_MAX_TRY`
guard and raises the fatal internal error. -/
theorem c2_batch_raises_counterexample :
    (BaseRepository.insert_or_update_batch ⟨["id"], false⟩
        ["gmt_create", "gmt_modified"] 2
        ⟨[], [], [],
          [FlushOutcome.integrityError, FlushOutcome.integrityError],
          0, 0, [], []⟩
        [⟨0, [("id", Value.vnone)]⟩] 1).2.2 =
      some (DbErr.internal dbFailMsg) :=
  (insert_or_update_batch_exhaust ⟨["id"], false⟩
    ["gmt_create", "gmt_modified"] 2 [] 2 1
    ⟨[], [], [],
      [FlushOutcome.integrityError, FlushOutcome.integrityError],
      0, 0, [], []⟩
    ⟨0, [("id", Value.vnone)]⟩ [] (by decide) (by decide)).1

/-- C2 amended: the batch path raises exactly like the single path once
the retry budget is exceeded: for every non-empty batch whose scripted
flush outcomes are `DB_MAX_TRY` constraint violations, the call raises
the fatal internal error after logging one error line. -/
theorem c2_batch_raises_on_exhaustion (model : Schema)
    (timeKeys : List String) (maxTry : Nat) (w : World)
    (check : BaseObject) (bs : List BaseObject)
    (rest : List FlushOutcome)
    (hs : w.flushScript =
      List.replicate maxTry FlushOutcome.integrityError ++ rest) :
    (BaseRepository.insert_or_update_batch model timeKeys maxTry w
        (check :: bs) 1).2.2 = some (DbErr.internal dbFailMsg) ∧
    (BaseRepository.insert_or_update_batch model timeKeys maxTry w
        (check :: bs) 1).1.log = w.log ++ [dbFailMsg] :=
  insert_or_update_batch_exhaust model timeKeys maxTry rest maxTry 1 w
    check bs (by omega) hs

/-- C2 witness: the amended statement applied with budget 2, a
singleton batch and a script of two integrity errors. -/
theorem c2_batch_raises_on_exhaustion_witness :
    ((⟨[], [], [],
        [FlushOutcome.integrityError, FlushOutcome.integrityError],
        0, 0, [], []⟩ : World).flushScript =
      List.replicate 2 FlushOutcome.integrityError ++ []) ∧
    ((BaseRepository.insert_or_update_batch ⟨["id"], false⟩
        ["gmt_create", "gmt_modified"] 2
        ⟨[], [], [],
          [FlushOutcome.integrityError, FlushOutcome.integrityError],
          0, 0, [], []⟩
        [⟨0, [("id", Value.vnone)]⟩] 1).2.2 =
      some (DbErr.internal dbFailMsg) ∧
    (BaseRepository.insert_or_update_batch ⟨["id"], false⟩
        ["gmt_create", "gmt_modified"] 2
        ⟨[], [], [],
          [FlushOutcome.integrityError, FlushOutcome.integrityError],
          0, 0, [], []⟩
        [⟨0, [("id", Value.vnone)]⟩] 1).1.log =
      ([] : List String) ++ [dbFailMsg]) :=
  ⟨by decide,
   c2_batch_raises_on_exhaustion ⟨["id"], false⟩
     ["gmt_create", "gmt_modified"] 2
     ⟨[], [], [],
       [FlushOutcome.integrityError, FlushOutcome.integrityError],
       0, 0, [], []⟩
     ⟨0, [("id", Value.vnone)]⟩ [] [] (by decide)⟩

/-- C9 counterexample: the claim says every non-collision failure
during `insert_or_update_batch`'s flush surfaces as the internal error
and that store-specific error types never cross the Repository
boundary.  The batch path catches only `IntegrityError`, so a scripted
non-integrity store failure crosses the boundary as the raw store
exception. -/
theorem c9_batch_raw_error_counterexample :
    (BaseRepository.insert_or_update_batch ⟨["id"], false⟩
        ["gmt_create", "gmt_modified"] 3
        ⟨[], [], [], [FlushOutcome.otherError], 0, 0, [], []⟩
        [⟨0, [("id", Value.vnone)]⟩] 1).2.2 = some DbErr.storeErr :=
  (insert_or_update_batch_otherError ⟨["id"], false⟩
    ["gmt_create", "gmt_modified"] 3
    ⟨[], [], [], [FlushOutcome.otherError], 0, 0, [], []⟩
    ⟨0, [("id", Value.vnone)]⟩ [] 1 [] (by decide) (by decide)).1

/-- C9 amended: on the single path every non-collision flush failure is
logged and raised as the internal error, but the batch path has no such
handler: a non-collision store failure there propagates as the raw
store exception without logging. -/
theorem c9_error_boundary (model : Schema) (timeKeys : List String)
    (maxTry : Nat) :
    (∀ (w : World) (e : BaseObject) (count : Nat)
        (tail : List FlushOutcome),
      count ≤ maxTry → w.flushScript = FlushOutcome.otherError :: tail →
      (BaseRepository.insert_or_update model timeKeys maxTry w e
          count).2.2 = some (DbErr.internal dbFailMsg) ∧
      (BaseRepository.insert_or_update model timeKeys maxTry w e
          count).1.log = w.log ++ [dbFailMsg]) ∧
    (∀ (w : World) (check : BaseObject) (bs : List BaseObject)
        (count : Nat) (tail : List FlushOutcome),
      count ≤ maxTry → w.flushScript = FlushOutcome.otherError :: tail →
      (BaseRepository.insert_or_update_batch model timeKeys maxTry w
          (check :: bs) count).2.2 = some DbErr.storeErr ∧
      (BaseRepository.insert_or_update_batch model timeKeys maxTry w
          (check :: bs) count).1.log = w.log) := by
  constructor
  · intro w e count tail hc hs
    rw [insert_or_update_otherError model timeKeys maxTry w e count tail
      hc hs]
    obtain ⟨p1, p2, p3, p4, p5⟩ := prepStep_world model timeKeys w e
    exact ⟨rfl, by simp [p4]⟩
  · intro w check bs count tail hc hs
    exact insert_or_update_batch_otherError model timeKeys maxTry w check
      bs count tail hc hs

/-- C9 witness: the amended statement applied with budget 3 and a
scripted non-integrity store failure, on the single and the batch
path. -/
theorem c9_error_boundary_witness :
    ((1 ≤ 3 ∧
      (⟨[], [], [], [FlushOutcome.otherError], 0, 0, [], []⟩ :
        World).flushScript = FlushOutcome.otherError :: []) ∧
    ((BaseRepository.insert_or_update ⟨["id"], false⟩
        ["gmt_create", "gmt_modified"] 3
        ⟨[], [], [], [FlushOutcome.otherError], 0, 0, [], []⟩
        ⟨0, [("id", Value.vnone)]⟩ 1).2.2 =
      some (DbErr.internal dbFailMsg) ∧
    (BaseRepository.insert_or_update ⟨["id"], false⟩
        ["gmt_create", "gmt_modified"] 3
        ⟨[], [], [], [FlushOutcome.otherError], 0, 0, [], []⟩
        ⟨0, [("id", Value.vnone)]⟩ 1).1.log =
      ([] : List String) ++ [dbFailMsg])) ∧
    ((BaseRepository.insert_or_update_batch ⟨["id"], false⟩
        ["gmt_create", "gmt_modified"] 3
        ⟨[], [], [], [FlushOutcome.otherError], 0, 0, [], []⟩
        [⟨0, [("id", Value.vnone)]⟩] 1).2.2 = some DbErr.storeErr ∧
    (BaseRepository.insert_or_update_batch ⟨["id"], false⟩
        ["gmt_create", "gmt_modified"] 3
        ⟨[], [], [], [FlushOutcome.otherError], 0, 0, [], []⟩
        [⟨0, [("id", Value.vnone)]⟩] 1).1.log = ([] : List String)) :=
  ⟨⟨⟨by decide, by decide⟩,
    (c9_error_boundary ⟨["id"], false⟩ ["gmt_create", "gmt_modified"] 3).1
      ⟨[], [], [], [FlushOutcome.otherError], 0, 0, [], []⟩
      ⟨0, [("id", Value.vnone)]⟩ 1 [] (by decide) (by decide)⟩,
   (c9_error_boundary ⟨["id"], false⟩ ["gmt_create", "gmt_modified"] 3).2
     ⟨[], [], [], [FlushOutcome.otherError], 0, 0, [], []⟩
     ⟨0, [("id", Value.vnone)]⟩ [] 1 [] (by decide) (by decide)⟩

/-- C7: a successful `insert_or_update_batch` on a non-empty batch
whose first element has no id, under a non-auto-increment schema,
assigns every element a distinct non-empty freshly generated id (the
`i`-th element gets the `i`-th identifier drawn from the uuid stream)
and stamps every element's `gmt_modified` with the single wall-clock
reading taken at the start of the operation. -/
theorem c7_batch_fresh_ids (model : Schema) (timeKeys : List String)
    (maxTry : Nat) (w : World) (check : BaseObject)
    (bs : List BaseObject) (srest : List FlushOutcome)
    (hauto : model.idAutoincrement = false) (hidtk : "id" ∉ timeKeys)
    (hdm : DATA_MODIFIED ∈ timeKeys)
    (hid : (check.getattr "id").truthy = false)
    (hhas : ∀ x ∈ check :: bs, x.hasattr DATA_MODIFIED = true)
    (hmax : 1 ≤ maxTry)
    (hs : w.flushScript = FlushOutcome.ok :: srest) :
    (BaseRepository.insert_or_update_batch model timeKeys maxTry w
        (check :: bs) 1).2.2 = Option.none ∧
    (BaseRepository.insert_or_update_batch model timeKeys maxTry w
        (check :: bs) 1).2.1.length = (check :: bs).length ∧
    (BaseRepository.insert_or_update_batch model timeKeys maxTry w
        (check :: bs) 1).2.1.map (fun x => x.getattr "id") =
      (List.range (check :: bs).length).map
        (fun i => Value.vstr (uuid4hex (w.uuidCtr + i))) ∧
    ((BaseRepository.insert_or_update_batch model timeKeys maxTry w
        (check :: bs) 1).2.1.map (fun x => x.getattr "id")).Nodup ∧
    (∀ v ∈ (BaseRepository.insert_or_update_batch model timeKeys maxTry w
        (check :: bs) 1).2.1.map (fun x => x.getattr "id"),
      ∃ s, v = Value.vstr s ∧ s ≠ "") ∧
    (∀ x ∈ (BaseRepository.insert_or_update_batch model timeKeys maxTry w
        (check :: bs) 1).2.1,
      x.getattr DATA_MODIFIED = Value.vdatetime w.clock) := by
  rw [insert_or_update_batch_unfold model timeKeys maxTry w check bs 1
    (by omega)]
  obtain ⟨p1, p2, p3, p4, p5, p6⟩ := prepBatch_world model timeKeys w check bs
  have hs' : (prepBatch model timeKeys w check bs).1.flushScript =
      FlushOutcome.ok :: srest := by
    rw [p1, hs]
  rw [bulkSaveFlush_of_cons _ _ _ _ hs']
  dsimp only
  have hids := prepBatch_ids model timeKeys w check bs hid hauto hidtk
  refine ⟨rfl, prepBatch_length model timeKeys w check bs, hids, ?_, ?_,
    prepBatch_gmt model timeKeys w check bs hdm hhas⟩
  · rw [hids]
    refine List.Nodup.map ?_ (List.nodup_range _)
    intro a b hab
    have := uuid4hex_injective (Value.vstr.inj hab)
    omega
  · intro v hv
    rw [hids] at hv
    obtain ⟨i, hi, hvi⟩ := List.mem_map.mp hv
    exact ⟨uuid4hex (w.uuidCtr + i), hvi.symm, uuid4hex_ne_empty _⟩

/-- C7 witness: the statement applied to a two-element batch with no
ids, budget 1 and a successful flush, starting the uuid stream at 5
and the clock at 9. -/
theorem c7_batch_fresh_ids_witness :
    ((⟨["id"], false⟩ : Schema).idAutoincrement = false ∧
      "id" ∉ ["gmt_create", "gmt_modified"] ∧
      DATA_MODIFIED ∈ ["gmt_create", "gmt_modified"] ∧
      ((⟨0, [("id", Value.vnone), ("gmt_modified", Value.vnone)]⟩ :
        BaseObject).getattr "id").truthy = false ∧
      (∀ x ∈ [(⟨0, [("id", Value.vnone), ("gmt_modified", Value.vnone)]⟩ :
          BaseObject),
        ⟨1, [("id", Value.vnone), ("gmt_modified", Value.vnone)]⟩],
        x.hasattr DATA_MODIFIED = true) ∧
      (1 : Nat) ≤ 1 ∧
      (⟨[], [], [], [FlushOutcome.ok], 5, 9, [], []⟩ :
        World).flushScript = FlushOutcome.ok :: []) ∧
    ((BaseRepository.insert_or_update_batch ⟨["id"], false⟩
        ["gmt_create", "gmt_modified"] 1
        ⟨[], [], [], [FlushOutcome.ok], 5, 9, [], []⟩
        [⟨0, [("id", Value.vnone), ("gmt_modified", Value.vnone)]⟩,
          ⟨1, [("id", Value.vnone), ("gmt_modified", Value.vnone)]⟩]
        1).2.2 = Option.none ∧
    (BaseRepository.insert_or_update_batch ⟨["id"], false⟩
        ["gmt_create", "gmt_modified"] 1
        ⟨[], [], [], [FlushOutcome.ok], 5, 9, [], []⟩
        [⟨0, [("id", Value.vnone), ("gmt_modified", Value.vnone)]⟩,
          ⟨1, [("id", Value.vnone), ("gmt_modified", Value.vnone)]⟩]
        1).2.1.length =
      ([(⟨0, [("id", Value.vnone), ("gmt_modified", Value.vnone)]⟩ :
          BaseObject),
        ⟨1, [("id", Value.vnone), ("gmt_modified", Value.vnone)]⟩]).length ∧
    (BaseRepository.insert_or_update_batch ⟨["id"], false⟩
        ["gmt_create", "gmt_modified"] 1
        ⟨[], [], [], [FlushOutcome.ok], 5, 9, [], []⟩
        [⟨0, [("id", Value.vnone), ("gmt_modified", Value.vnone)]⟩,
          ⟨1, [("id", Value.vnone), ("gmt_modified", Value.vnone)]⟩]
        1).2.1.map (fun x => x.getattr "id") =
      (List.range
        ([(⟨0, [("id", Value.vnone), ("gmt_modified", Value.vnone)]⟩ :
            BaseObject),
          ⟨1, [("id", Value.vnone), ("gmt_modified", Value.vnone)]⟩]).length).map
        (fun i => Value.vstr (uuid4hex (5 + i))) ∧
    ((BaseRepository.insert_or_update_batch ⟨["id"], false⟩
        ["gmt_create", "gmt_modified"] 1
        ⟨[], [], [], [FlushOutcome.ok], 5, 9, [], []⟩
        [⟨0, [("id", Value.vnone), ("gmt_modified", Value.vnone)]⟩,
          ⟨1, [("id", Value.vnone), ("gmt_modified", Value.vnone)]⟩]
        1).2.1.map (fun x => x.getattr "id")).Nodup ∧
    (∀ v ∈ (BaseRepository.insert_or_update_batch ⟨["id"], false⟩
        ["gmt_create", "gmt_modified"] 1
        ⟨[], [], [], [FlushOutcome.ok], 5, 9, [], []⟩
        [⟨0, [("id", Value.vnone), ("gmt_modified", Value.vnone)]⟩,
          ⟨1, [("id", Value.vnone), ("gmt_modified", Value.vnone)]⟩]
        1).2.1.map (fun x => x.getattr "id"),
      ∃ s, v = Value.vstr s ∧ s ≠ "") ∧
    (∀ x ∈ (BaseRepository.insert_or_update_batch ⟨["id"], false⟩
        ["gmt_create", "gmt_modified"] 1
        ⟨[], [], [], [FlushOutcome.ok], 5, 9, [], []⟩
        [⟨0, [("id", Value.vnone), ("gmt_modified", Value.vnone)]⟩,
          ⟨1, [("id", Value.vnone), ("gmt_modified", Value.vnone)]⟩]
        1).2.1,
      x.getattr DATA_MODIFIED = Value.vdatetime 9)) :=
  ⟨⟨rfl, by decide, by decide, by decide, by decide, by decide, rfl⟩,
   c7_batch_fresh_ids ⟨["id"], false⟩ ["gmt_create", "gmt_modified"] 1
     ⟨[], [], [], [FlushOutcome.ok], 5, 9, [], []⟩
     ⟨0, [("id", Value.vnone), ("gmt_modified", Value.vnone)]⟩
     [⟨1, [("id", Value.vnone), ("gmt_modified", Value.vnone)]⟩] []
     rfl (by decide) (by decide) (by decide) (by decide) (by decide) rfl⟩

/-- C8: on every successful run, `insert_or_update` performs only
session adds and flushes — never a commit — while `delete` and
`update_with_attr` each commit immediately after their store
operation. -/
theorem c8_flush_commit_asymmetry (model : Schema)
    (timeKeys : List String) (maxTry : Nat) (w : World) (e : BaseObject)
    (count : Nat)
    (_hsucc : (BaseRepository.insert_or_update model timeKeys maxTry w e
      count).2.2 = Option.none) :
    (∃ t, (BaseRepository.insert_or_update model timeKeys maxTry w e
        count).1.events = w.events ++ t ∧
      (∀ ev ∈ t, ev = Event.add ∨ ev = Event.flush) ∧
      Event.commit ∉ t) ∧
    (∀ (w2 : World) (e2 : BaseObject),
      (BaseRepository.delete w2 e2).events =
        w2.events ++ [Event.sessDelete, Event.commit]) ∧
    (∀ (w3 : World) (qa : List (String × Value)) (ua : Dict),
      (BaseRepository.update_with_attr w3 qa ua).events =
        w3.events ++ [Event.queryUpdate, Event.commit]) := by
  refine ⟨?_, ?_, ?_⟩
  · obtain ⟨t, ht1, ht2⟩ := insert_or_update_events model timeKeys maxTry
      (maxTry + 1 - count) count w e rfl
    refine ⟨t, ht1, ht2, ?_⟩
    intro hmem
    rcases ht2 _ hmem with h | h <;> simp at h
  · intro w2 e2
    simp [BaseRepository.delete, sessCommit]
  · intro w3 qa ua
    simp [BaseRepository.update_with_attr, sessCommit, readClock]

/-- C8 witness: the statement applied to a successful insert (budget 1,
one scripted successful flush) together with the `delete` and
`update_with_attr` commit traces. -/
theorem c8_flush_commit_asymmetry_witness :
    ((BaseRepository.insert_or_update ⟨["id"], false⟩
        ["gmt_create", "gmt_modified"] 1
        ⟨[], [], [], [FlushOutcome.ok], 0, 0, [], []⟩
        ⟨0, [("id", Value.vnone)]⟩ 1).2.2 = Option.none) ∧
    ((∃ t, (BaseRepository.insert_or_update ⟨["id"], false⟩
        ["gmt_create", "gmt_modified"] 1
        ⟨[], [], [], [FlushOutcome.ok], 0, 0, [], []⟩
        ⟨0, [("id", Value.vnone)]⟩ 1).1.events =
        (⟨[], [], [], [FlushOutcome.ok], 0, 0, [], []⟩ :
          World).events ++ t ∧
      (∀ ev ∈ t, ev = Event.add ∨ ev = Event.flush) ∧
      Event.commit ∉ t) ∧
    (∀ (w2 : World) (e2 : BaseObject),
      (BaseRepository.delete w2 e2).events =
        w2.events ++ [Event.sessDelete, Event.commit]) ∧
    (∀ (w3 : World) (qa : List (String × Value)) (ua : Dict),
      (BaseRepository.update_with_attr w3 qa ua).events =
        w3.events ++ [Event.queryUpdate, Event.commit])) := by
  have hsucc : (BaseRepository.insert_or_update ⟨["id"], false⟩
      ["gmt_create", "gmt_modified"] 1
      ⟨[], [], [], [FlushOutcome.ok], 0, 0, [], []⟩
      ⟨0, [("id", Value.vnone)]⟩ 1).2.2 = Option.none := by
    simp [BaseRepository.insert_or_update, genUuid, readClock, sessAdd,
      sessFlush, logError, BaseObject.setattr, BaseObject.getattr,
      BaseObject.hasattr, dset, dlookup, Value.truthy, uuid4hex,
      datetimeFromtimestamp, DATA_MODIFIED]
  exact ⟨hsucc, c8_flush_commit_asymmetry ⟨["id"], false⟩
    ["gmt_create", "gmt_modified"] 1
    ⟨[], [], [], [FlushOutcome.ok], 0, 0, [], []⟩
    ⟨0, [("id", Value.vnone)]⟩ 1 hsucc⟩

/-- C1 witness: the statement applied with budget 3: an exhaustion run
scripted with three integrity errors, and a success run with one
collision followed by success (`N = 2`), the uuid stream starting at
5. -/
theorem c1_insert_or_update_retry_witness :
    ((⟨["id"], false⟩ : Schema).idAutoincrement = false ∧
      "id" ∉ ["gmt_create", "gmt_modified"] ∧
      (⟨[], [], [],
        [FlushOutcome.integrityError, FlushOutcome.integrityError,
          FlushOutcome.integrityError], 0, 0, [], []⟩ :
        World).flushScript =
        List.replicate 3 FlushOutcome.integrityError ++ [] ∧
      (1 : Nat) ≤ 2 ∧ (2 : Nat) ≤ 3 ∧
      (⟨[], [], [], [FlushOutcome.integrityError, FlushOutcome.ok],
        5, 0, [], []⟩ : World).flushScript =
        List.replicate (2 - 1) FlushOutcome.integrityError ++
          FlushOutcome.ok :: [] ∧
      ((⟨0, [("id", Value.vnone)]⟩ : BaseObject).getattr "id").truthy =
        false ∧
      (⟨[], [], [], [FlushOutcome.integrityError, FlushOutcome.ok],
        5, 0, [], []⟩ : World).pending = []) ∧
    (((BaseRepository.insert_or_update ⟨["id"], false⟩
        ["gmt_create", "gmt_modified"] 3
        ⟨[], [], [],
          [FlushOutcome.integrityError, FlushOutcome.integrityError,
            FlushOutcome.integrityError], 0, 0, [], []⟩
        ⟨0, [("id", Value.vnone)]⟩ 1).2.2 =
        some (DbErr.internal dbFailMsg) ∧
      (BaseRepository.insert_or_update ⟨["id"], false⟩
        ["gmt_create", "gmt_modified"] 3
        ⟨[], [], [],
          [FlushOutcome.integrityError, FlushOutcome.integrityError,
            FlushOutcome.integrityError], 0, 0, [], []⟩
        ⟨0, [("id", Value.vnone)]⟩ 1).1.log =
        ([] : List String) ++ [dbFailMsg] ∧
      (BaseRepository.insert_or_update ⟨["id"], false⟩
        ["gmt_create", "gmt_modified"] 3
        ⟨[], [], [],
          [FlushOutcome.integrityError, FlushOutcome.integrityError,
            FlushOutcome.integrityError], 0, 0, [], []⟩
        ⟨0, [("id", Value.vnone)]⟩ 1).1.flushed = [] ∧
      (BaseRepository.insert_or_update ⟨["id"], false⟩
        ["gmt_create", "gmt_modified"] 3
        ⟨[], [], [],
          [FlushOutcome.integrityError, FlushOutcome.integrityError,
            FlushOutcome.integrityError], 0, 0, [], []⟩
        ⟨0, [("id", Value.vnone)]⟩ 1).1.committed = []) ∧
    ((BaseRepository.insert_or_update ⟨["id"], false⟩
        ["gmt_create", "gmt_modified"] 3
        ⟨[], [], [], [FlushOutcome.integrityError, FlushOutcome.ok],
          5, 0, [], []⟩
        ⟨0, [("id", Value.vnone)]⟩ 1).2.2 = Option.none ∧
      (BaseRepository.insert_or_update ⟨["id"], false⟩
        ["gmt_create", "gmt_modified"] 3
        ⟨[], [], [], [FlushOutcome.integrityError, FlushOutcome.ok],
          5, 0, [], []⟩
        ⟨0, [("id", Value.vnone)]⟩ 1).2.1.getattr "id" =
        Value.vstr (uuid4hex (5 + (2 - 1))) ∧
      (BaseRepository.insert_or_update ⟨["id"], false⟩
        ["gmt_create", "gmt_modified"] 3
        ⟨[], [], [], [FlushOutcome.integrityError, FlushOutcome.ok],
          5, 0, [], []⟩
        ⟨0, [("id", Value.vnone)]⟩ 1).1.flushed =
        ([] : List BaseObject) ++
          [(BaseRepository.insert_or_update ⟨["id"], false⟩
            ["gmt_create", "gmt_modified"] 3
            ⟨[], [], [], [FlushOutcome.integrityError, FlushOutcome.ok],
              5, 0, [], []⟩
            ⟨0, [("id", Value.vnone)]⟩ 1).2.1] ∧
      (BaseRepository.insert_or_update ⟨["id"], false⟩
        ["gmt_create", "gmt_modified"] 3
        ⟨[], [], [], [FlushOutcome.integrityError, FlushOutcome.ok],
          5, 0, [], []⟩
        ⟨0, [("id", Value.vnone)]⟩ 1).1.flushScript = [])) :=
  ⟨⟨rfl, by decide, by decide, by decide, by decide, by decide, by decide,
    rfl⟩,
   c1_insert_or_update_retry ⟨["id"], false⟩
     ["gmt_create", "gmt_modified"] 3 2
     ⟨[], [], [],
       [FlushOutcome.integrityError, FlushOutcome.integrityError,
         FlushOutcome.integrityError], 0, 0, [], []⟩
     ⟨[], [], [], [FlushOutcome.integrityError, FlushOutcome.ok],
       5, 0, [], []⟩
     ⟨0, [("id", Value.vnone)]⟩ ⟨0, [("id", Value.vnone)]⟩ [] []
     rfl (by decide) (by decide) (by decide) (by decide) (by decide)
     (by decide) rfl⟩

/-- C10 witness: the statement applied with budget 1, a scripted
non-integrity failure, an element with no id and a `gmt_modified`
slot, the uuid stream starting at 4 and the clock at 9. -/
theorem c10_fatal_path_keeps_mutation_witness :
    (((⟨["id", "gmt_modified"], false⟩ : Schema).idAutoincrement =
        false ∧
      "id" ∉ ["gmt_create", "gmt_modified"] ∧
      DATA_MODIFIED ∈ ["gmt_create", "gmt_modified"] ∧
      ((⟨0, [("id", Value.vnone), ("gmt_modified", Value.vnone)]⟩ :
        BaseObject).getattr "id").truthy = false ∧
      (⟨0, [("id", Value.vnone), ("gmt_modified", Value.vnone)]⟩ :
        BaseObject).hasattr DATA_MODIFIED = true ∧
      (1 : Nat) ≤ 1 ∧
      (⟨[], [], [], [FlushOutcome.otherError], 4, 9, [], []⟩ :
        World).flushScript = FlushOutcome.otherError :: []) ∧
    ((BaseRepository.insert_or_update ⟨["id", "gmt_modified"], false⟩
        ["gmt_create", "gmt_modified"] 1
        ⟨[], [], [], [FlushOutcome.otherError], 4, 9, [], []⟩
        ⟨0, [("id", Value.vnone), ("gmt_modified", Value.vnone)]⟩
        1).2.2 = some (DbErr.internal dbFailMsg) ∧
    (BaseRepository.insert_or_update ⟨["id", "gmt_modified"], false⟩
        ["gmt_create", "gmt_modified"] 1
        ⟨[], [], [], [FlushOutcome.otherError], 4, 9, [], []⟩
        ⟨0, [("id", Value.vnone), ("gmt_modified", Value.vnone)]⟩
        1).2.1.getattr "id" = Value.vstr (uuid4hex 4) ∧
    (BaseRepository.insert_or_update ⟨["id", "gmt_modified"], false⟩
        ["gmt_create", "gmt_modified"] 1
        ⟨[], [], [], [FlushOutcome.otherError], 4, 9, [], []⟩
        ⟨0, [("id", Value.vnone), ("gmt_modified", Value.vnone)]⟩
        1).2.1.getattr DATA_MODIFIED = Value.vdatetime 9)) :=
  ⟨⟨rfl, by decide, by decide, by decide, by decide, by decide, rfl⟩,
   c10_fatal_path_keeps_mutation ⟨["id", "gmt_modified"], false⟩
     ["gmt_create", "gmt_modified"] 1
     ⟨[], [], [], [FlushOutcome.otherError], 4, 9, [], []⟩
     ⟨0, [("id", Value.vnone), ("gmt_modified", Value.vnone)]⟩ []
     rfl (by decide) (by decide) (by decide) (by decide) (by decide) rfl⟩
